import Mathlib

/-!
# Verification of the igtaccounting ledger and reporting engine

Shallow embedding of the core of `backend/app.py` and
`backend/database_cosmos.py`, together with theorems settling the frozen
claims about it.

Modelling conventions:
* monetary amounts (Python floats) are modelled as rationals `ℚ`;
* calendar dates, which the code stores as ISO `YYYY-MM-DD` strings and
  compares with string comparison, are modelled as naturals `YYYYMMDD`
  (string order on well-formed ISO dates coincides with numeric order);
* the Cosmos document store is modelled as an explicit list of records, and
  each fallible operation returns `Except`;
* cosmetic output sorting (the reports sort groups by type name for display)
  is omitted: it moves list elements around but does not change any of the
  memberships, balances or totals that the claims speak about.
-/

namespace IgtAccounting

/-- A chart-of-accounts record, with its account type denormalised onto it
exactly as the Cosmos documents embed `account_type`
(`database_cosmos.get_chart_of_accounts`). -/
structure ChartAccount where
  account_id : Nat
  business_id : Nat
  account_code : String
  account_name : String
  account_type_id : Nat
  account_type_name : String
  category : String
  normal_balance : String
  is_active : Bool
  deriving DecidableEq, Repr

/-- A transaction line as embedded in a transaction document
(`create_transaction`, Cosmos branch). -/
structure TxnLine where
  transaction_line_id : Nat
  chart_of_account_id : Nat
  debit_amount : ℚ
  credit_amount : ℚ
  account_code : String
  account_name : String
  deriving DecidableEq, Repr

/-- A transaction document with embedded lines. -/
structure Transaction where
  transaction_id : Nat
  business_id : Nat
  transaction_date : Nat
  description : String
  transaction_type : String
  amount : ℚ
  lines : List TxnLine
  deriving DecidableEq, Repr

/-- A requested transaction line, as taken from the POST body:
`chart_of_account_id` may be missing, amounts default to 0
(`line.get('debit_amount', 0) or 0`). -/
structure ReqLine where
  chart_of_account_id : Option Nat
  debit_amount : ℚ
  credit_amount : ℚ
  deriving DecidableEq, Repr

/-- The POST body of `create_transaction`: `transaction_date` is absent when
the request did not carry one (`data.get('transaction_date')`). -/
structure CreateRequest where
  transaction_date : Option Nat
  description : String
  transaction_type : String
  lines : List ReqLine
  deriving DecidableEq, Repr

/-- The persistent state the ledger operations touch: the chart of accounts
and the transactions container. -/
structure LedgerState where
  accounts : List ChartAccount
  transactions : List Transaction
  deriving DecidableEq, Repr

/-- Source `database_cosmos.get_chart_of_account`: first chart account matching
`account_id` and `business_id`. -/
def get_chart_of_account (accounts : List ChartAccount) (account_id business_id : Nat) :
    Option ChartAccount :=
  accounts.find? (fun a => a.account_id == account_id && a.business_id == business_id)

/-- Total `sum(float(line.get('debit_amount', 0) or 0) for line in lines)`. -/
def total_debits (lines : List ReqLine) : ℚ :=
  (lines.map (·.debit_amount)).sum

/-- Total `sum(float(line.get('credit_amount', 0) or 0) for line in lines)`. -/
def total_credits (lines : List ReqLine) : ℚ :=
  (lines.map (·.credit_amount)).sum

/-- Query `SELECT VALUE MAX(c.transaction_id) ... WHERE c.business_id = @business_id`,
then `+ 1`. -/
def next_transaction_id (txns : List Transaction) (business_id : Nat) : Nat :=
  ((txns.filter (fun t => t.business_id == business_id)).map
    (·.transaction_id)).foldl max 0 + 1

/-- The per-line transformation loop of `create_transaction` (Cosmos branch):
each line must carry a `chart_of_account_id` that resolves via
`get_chart_of_account`; account code and name are denormalised onto the
stored line.  There is no check that two lines carry distinct accounts. -/
def transform_lines (accounts : List ChartAccount) (business_id : Nat) :
    Nat → List ReqLine → Except String (List TxnLine)
  | _, [] => .ok []
  | idx, line :: rest =>
    match line.chart_of_account_id with
    | none => .error "All lines must have a chart_of_account_id"
    | some account_id =>
      match get_chart_of_account accounts account_id business_id with
      | none => .error "Account not found"
      | some account =>
        match transform_lines accounts business_id (idx + 1) rest with
        | .error e => .error e
        | .ok tail =>
          .ok ({ transaction_line_id := idx + 1
                 chart_of_account_id := account_id
                 debit_amount := line.debit_amount
                 credit_amount := line.credit_amount
                 account_code := account.account_code
                 account_name := account.account_name } :: tail)

/-- Source `create_transaction(business_id)` (Cosmos branch of `app.py`): validates
the date, the line count (≥ 2) and `|Σdebit − Σcredit| ≤ 0.01`, resolves each
line's account, assigns `amount = Σdebit` and appends one transaction
document.  On any validation failure nothing is written. -/
def create_transaction (st : LedgerState) (business_id : Nat) (req : CreateRequest) :
    Except String (LedgerState × Transaction) :=
  match req.transaction_date with
  | none => .error "Transaction date is required"
  | some d =>
    if req.lines.length < 2 then
      .error "At least two transaction lines are required"
    else
      let td := total_debits req.lines
      let tc := total_credits req.lines
      if |td - tc| > 1 / 100 then
        .error "Debits must equal credits"
      else
        match transform_lines st.accounts business_id 0 req.lines with
        | .error e => .error e
        | .ok tlines =>
          let doc : Transaction :=
            { transaction_id := next_transaction_id st.transactions business_id
              business_id := business_id
              transaction_date := d
              description := req.description
              transaction_type := req.transaction_type
              amount := td
              lines := tlines }
          .ok ({ st with transactions := st.transactions ++ [doc] }, doc)

/-! ## The persistence abstraction's `update_item` (`database_cosmos.py`)

A Cosmos document is modelled by its identifier, its partition key
(`business_id`), the secondary `transaction_id` key used by the
transactions-container fallback lookup, its server version token `_etag`,
and an opaque payload standing for all remaining fields.  The model covers
the `transactions` container; the `chart_of_accounts` and `businesses`
fallback arms of the source are the same shape with a different secondary
key. -/

structure CosmosDoc where
  id : String
  business_id : Nat
  transaction_id : Option Nat
  etag : Nat
  body : String
  deriving DecidableEq, Repr

/-- Call `container.read_item(item=item_id, ...)` with the not-found case as
`none`. -/
def read_item (store : List CosmosDoc) (item_id : String) : Option CosmosDoc :=
  store.find? (fun d => d.id == item_id)

/-- Call `container.replace_item(item=item['id'], body=clean_item)`: replaces the
document with the matching id.  No `etag`/`match_condition` argument is
passed in the source, so the server performs no version check. -/
def replace_item (store : List CosmosDoc) (item : CosmosDoc) : List CosmosDoc :=
  store.map (fun d => if d.id == item.id then item else d)

/-- Source `database_cosmos.update_item` for the `transactions` container: reads the
item currently stored under `item['id']`, copies the *current* `_etag` (and
`_ts`) onto the caller's item, and calls `replace_item` without a match
condition; when the id lookup fails it falls back to a query by
`transaction_id` and `business_id`, adopts the found document's id and
`_etag`, and replaces that.  At no point is the caller's own snapshot token
compared with the stored one. -/
def update_item (store : List CosmosDoc) (item : CosmosDoc) :
    Except String (List CosmosDoc × CosmosDoc) :=
  match read_item store item.id with
  | some existing =>
    let item' := { item with etag := existing.etag }
    .ok (replace_item store item', item')
  | none =>
    match item.transaction_id with
    | some tid =>
      match store.find? (fun d =>
          d.transaction_id == some tid && d.business_id == item.business_id) with
      | some existing =>
        let item' := { item with id := existing.id, etag := existing.etag }
        .ok (replace_item store item', item')
      | none => .error "Item not found"
    | none => .error "Item not found"

/-! ## `bulk_update_transactions` (`app.py`, relational branch)

Transaction lines here carry the stable row id the SQL `UPDATE ... WHERE
id = ?` keys on; `lines` is kept in row-id order, matching the source's
`ORDER BY tl.id` fetch. -/

structure BLine where
  line_id : Nat
  chart_of_account_id : Nat
  debit_amount : ℚ
  credit_amount : ℚ
  deriving DecidableEq, Repr

structure BTxn where
  txn_id : Nat
  business_id : Nat
  transaction_date : Nat
  description : String
  amount : ℚ
  lines : List BLine
  deriving DecidableEq, Repr

/-- The `line_filter == 'ALL'` selection loop: a line is skipped when any
*other* line already carries the target account, and is otherwise selected
when its side matches the target account's category (REVENUE/EXPENSE) or
normal balance. -/
def lines_to_update_ALL (lines : List BLine) (target : Nat)
    (category normal_balance : String) : List BLine :=
  lines.filter fun line =>
    let other_lines := lines.filter (fun l => l.line_id != line.line_id)
    let would_be_duplicate := other_lines.any (fun l => l.chart_of_account_id == target)
    if would_be_duplicate then false
    else if category == "REVENUE" || category == "EXPENSE" then
      (category == "REVENUE" && decide (0 < line.credit_amount)) ||
      (category == "EXPENSE" && decide (0 < line.debit_amount))
    else
      (normal_balance == "DEBIT" && decide (0 < line.debit_amount)) ||
      (normal_balance == "CREDIT" && decide (0 < line.credit_amount))

/-- The `lines_to_update` dispatch on `line_filter` (a raw request string:
anything other than the four known values selects nothing). -/
def lines_to_update (lines : List BLine) (line_filter : String) (target : Nat)
    (category normal_balance : String) : List BLine :=
  if line_filter == "ALL" then
    lines_to_update_ALL lines target category normal_balance
  else if line_filter == "DEBIT_ONLY" then
    lines.filter (fun l => decide (0 < l.debit_amount))
  else if line_filter == "CREDIT_ONLY" then
    lines.filter (fun l => decide (0 < l.credit_amount))
  else if line_filter == "FIRST_LINE" then
    lines.take 1
  else
    []

/-- One iteration of the per-transaction loop of `bulk_update_transactions`:
fewer than 2 lines → untouched; otherwise select lines, refuse (with an
error message, leaving the transaction untouched) when a line *outside* the
selection already carries the target account, and otherwise rewrite the
selected lines' `chart_of_account_id` to the target.  Returns the resulting
transaction, the number of lines updated, and the error if any. -/
def bulk_process_txn (txn : BTxn) (line_filter : String) (target : Nat)
    (category normal_balance : String) : BTxn × Nat × Option String :=
  if txn.lines.length < 2 then (txn, 0, none)
  else
    let sel := lines_to_update txn.lines line_filter target category normal_balance
    let sel_ids := sel.map (·.line_id)
    let other_lines := txn.lines.filter (fun l => !(sel_ids.contains l.line_id))
    if !sel.isEmpty && other_lines.any (fun l => l.chart_of_account_id == target) then
      (txn, 0, some "Cannot update - would create duplicate accounts")
    else
      ({ txn with
          lines := txn.lines.map (fun l =>
            if sel_ids.contains l.line_id then { l with chart_of_account_id := target }
            else l) },
        sel.length, none)

/-- Accumulator of the bulk-update loop: current transactions, updated
transaction count, updated line count, error list. -/
structure BulkAcc where
  txns : List BTxn
  updated_count : Nat
  lines_updated : Nat
  errors : List String
  deriving DecidableEq, Repr

/-- One loop step for a requested transaction id: fetch the transaction's
lines (a missing id fetches no rows, which the `len < 2` guard then skips),
process, and fold the outcome into the accumulator. -/
def bulk_step (line_filter : String) (target : Nat) (category normal_balance : String)
    (acc : BulkAcc) (tid : Nat) : BulkAcc :=
  match acc.txns.find? (fun t => t.txn_id == tid) with
  | none => acc
  | some txn =>
    let r := bulk_process_txn txn line_filter target category normal_balance
    match r.2.2 with
    | some e => { acc with errors := acc.errors ++ [e] }
    | none =>
      { txns := acc.txns.map (fun u => if u.txn_id == txn.txn_id then r.1 else u)
        updated_count := acc.updated_count + (if r.2.1 == 0 then 0 else 1)
        lines_updated := acc.lines_updated + r.2.1
        errors := acc.errors }

/-- Source `bulk_update_transactions(business_id)` (relational branch): validates
the target account (must exist under the business), resolves its category
and normal balance, checks all requested transactions belong to the
business, then runs the per-transaction loop.  The response carries the
counts and the error list capped at 10. -/
def bulk_update_transactions (accounts : List ChartAccount) (txns : List BTxn)
    (business_id : Nat) (transaction_ids : List Nat) (chart_of_account_id : Nat)
    (line_filter : String) : Except String (List BTxn × Nat × Nat × List String) :=
  if transaction_ids.isEmpty then .error "No transaction IDs provided"
  else
    match get_chart_of_account accounts chart_of_account_id business_id with
    | none => .error "Chart of account not found or does not belong to this business"
    | some chart_account =>
      if !(transaction_ids.all (fun tid =>
          txns.any (fun t => t.txn_id == tid && t.business_id == business_id))) then
        .error "Some transactions not found or do not belong to this business"
      else
        let final := transaction_ids.foldl
          (bulk_step line_filter chart_of_account_id
            chart_account.category chart_account.normal_balance)
          { txns := txns, updated_count := 0, lines_updated := 0, errors := [] }
        .ok (final.txns, final.updated_count, final.lines_updated, final.errors.take 10)

/-! ## Report aggregation: P&L (`database_cosmos.get_profit_loss_accounts`,
`app.py get_profit_loss`) and Balance Sheet (`app.py get_balance_sheet`,
Cosmos branch) -/

/-- Source `database_cosmos.get_transactions` with optional date bounds (the source
compares ISO date strings; here the equivalent numeric comparison). -/
def get_transactions (txns : List Transaction) (business_id : Nat)
    (start_date end_date : Option Nat) : List Transaction :=
  txns.filter (fun t => t.business_id == business_id &&
    (match start_date with | some s => decide (s ≤ t.transaction_date) | none => true) &&
    (match end_date with | some e => decide (t.transaction_date ≤ e) | none => true))

/-- The `debit_total` accumulated for one account by the aggregation loops
(`account_balances[account_id]['debit_total'] += ...`). -/
def line_debit_total (txns : List Transaction) (aid : Nat) : ℚ :=
  (txns.map (fun t =>
    ((t.lines.filter (fun l => l.chart_of_account_id == aid)).map (·.debit_amount)).sum)).sum

/-- The `credit_total` accumulated for one account by the aggregation loops. -/
def line_credit_total (txns : List Transaction) (aid : Nat) : ℚ :=
  (txns.map (fun t =>
    ((t.lines.filter (fun l => l.chart_of_account_id == aid)).map (·.credit_amount)).sum)).sum

/-- Test `account_id in account_balances`: the account appears on some line of the
given transactions. -/
def has_lines (txns : List Transaction) (aid : Nat) : Bool :=
  txns.any (fun t => t.lines.any (fun l => l.chart_of_account_id == aid))

/-- An account together with the balance the P&L attaches to it. -/
structure PLAccount where
  account : ChartAccount
  balance : ℚ
  deriving DecidableEq, Repr

/-- Source `database_cosmos.get_profit_loss_accounts`: REVENUE/EXPENSE accounts of
the business, balance `credit − debit` (REVENUE) or `debit − credit`
(EXPENSE) over lines of transactions dated within the range (0 when the
account has no line there), accounts with `|balance| < 0.01` dropped. -/
def get_profit_loss_accounts (accounts : List ChartAccount) (txns : List Transaction)
    (business_id start_date end_date : Nat) : List PLAccount :=
  let accs := accounts.filter (fun a => a.business_id == business_id)
  let re := accs.filter (fun a => a.category == "REVENUE" || a.category == "EXPENSE")
  let txnsR := get_transactions txns business_id (some start_date) (some end_date)
  let withBal := re.map (fun a =>
    if has_lines txnsR a.account_id then
      let dt := line_debit_total txnsR a.account_id
      let ct := line_credit_total txnsR a.account_id
      { account := a, balance := if a.category == "REVENUE" then ct - dt else dt - ct }
    else
      { account := a, balance := (0 : ℚ) })
  withBal.filter (fun p => decide ((1 : ℚ) / 100 ≤ |p.balance|))

/-- One per-type group of the P&L response. -/
structure PLGroup where
  account_type_id : Nat
  account_type_name : String
  accounts : List PLAccount
  total : ℚ
  deriving DecidableEq, Repr

/-- Inserting one account into `revenue_by_type` / `expenses_by_type`
(dictionaries keyed by `account_type_id`, insertion-ordered). -/
def add_to_groups (groups : List PLGroup) (p : PLAccount) : List PLGroup :=
  if groups.any (fun g => g.account_type_id == p.account.account_type_id) then
    groups.map (fun g =>
      if g.account_type_id == p.account.account_type_id then
        { g with accounts := g.accounts ++ [p], total := g.total + p.balance }
      else g)
  else
    groups ++ [{ account_type_id := p.account.account_type_id
                 account_type_name := p.account.account_type_name
                 accounts := [p]
                 total := p.balance }]

/-- The P&L response payload. -/
structure PLReport where
  revenue : List PLGroup
  total_revenue : ℚ
  expenses : List PLGroup
  total_expenses : ℚ
  net_income : ℚ
  deriving DecidableEq, Repr

/-- Source `get_profit_loss` (Cosmos branch of `app.py`): group the P&L accounts by
account type (`category == 'REVENUE'` goes to revenue, the rest to
expenses), total each group, and set
`net_income = total_revenue - total_expenses`. -/
def get_profit_loss (accounts : List ChartAccount) (txns : List Transaction)
    (business_id start_date end_date : Nat) : PLReport :=
  let pls := get_profit_loss_accounts accounts txns business_id start_date end_date
  let revenue := pls.foldl
    (fun gs p => if p.account.category == "REVENUE" then add_to_groups gs p else gs) []
  let expenses := pls.foldl
    (fun gs p => if p.account.category == "REVENUE" then gs else add_to_groups gs p) []
  let total_revenue := (revenue.map (·.total)).sum
  let total_expenses := (expenses.map (·.total)).sum
  { revenue := revenue
    total_revenue := total_revenue
    expenses := expenses
    total_expenses := total_expenses
    net_income := total_revenue - total_expenses }

/-- The net-income accumulation the balance sheet performs over one
`get_profit_loss_accounts` result (`year_revenue - year_expenses`, where any
non-REVENUE account counts as expense). -/
def pl_net_income (accounts : List ChartAccount) (txns : List Transaction)
    (business_id start_date end_date : Nat) : ℚ :=
  let pls := get_profit_loss_accounts accounts txns business_id start_date end_date
  ((pls.filter (fun p => p.account.category == "REVENUE")).map (·.balance)).sum -
    ((pls.filter (fun p => !(p.account.category == "REVENUE"))).map (·.balance)).sum

/-! ### Balance sheet -/

/-- Uppercase a string's characters (`.upper()`). -/
def upperChars (s : String) : List Char :=
  s.data.map Char.toUpper

/-- Predicate `chars_startsWith pat s`: `pat` is a prefix of `s` (`str.startswith`). -/
def chars_startsWith : List Char → List Char → Bool
  | [], _ => true
  | _ :: _, [] => false
  | a :: as, b :: bs => a == b && chars_startsWith as bs

/-- Predicate `chars_substr pat s`: `pat` occurs as a contiguous substring of `s`
(Python `in` on strings). -/
def chars_substr (pat : List Char) : List Char → Bool
  | [] => pat.isEmpty
  | c :: rest => chars_startsWith pat (c :: rest) || chars_substr pat rest

/-- The "Opening Balance" equity detection of `get_balance_sheet`. -/
def is_opening_balance_account (a : ChartAccount) : Bool :=
  a.category == "EQUITY" &&
    (chars_substr "OPENING BALANCE".data (upperChars a.account_name) ||
      ["3030".data, "OB".data, "OPENING".data].contains (upperChars a.account_code))

/-- A subsidiary (bank / credit-card / loan) account record.  A falsy
(`None` or empty) `account_code` is modelled as `none`. -/
structure SubAccount where
  sid : Nat
  business_id : Nat
  account_name : String
  account_code : Option String
  opening_balance : Option ℚ
  current_balance : ℚ
  is_active : Bool
  deriving DecidableEq, Repr

/-- One entry of the assets / liabilities / equity lists of the balance
sheet response. -/
structure BSEntry where
  entry_id : Option Nat
  account_code : String
  account_name : String
  balance : ℚ
  is_bank_account : Bool
  is_credit_card : Bool
  is_loan : Bool
  deriving DecidableEq, Repr

structure RetainedEarnings where
  prior_years_net_income : ℚ
  current_year_net_income : ℚ
  total : ℚ
  deriving DecidableEq, Repr

structure BalanceSheetReport where
  assets : List BSEntry
  total_assets : ℚ
  liabilities : List BSEntry
  total_liabilities : ℚ
  equity : List BSEntry
  total_equity : ℚ
  retained_earnings : RetainedEarnings
  deriving DecidableEq, Repr

/-- The whole persisted state the balance sheet reads. -/
structure Database where
  accounts : List ChartAccount
  txns : List Transaction
  bank_accounts : List SubAccount
  credit_card_accounts : List SubAccount
  loan_accounts : List SubAccount
  deriving DecidableEq, Repr

/-- Balance of one chart account from cumulative lines
(`debit - credit` under a DEBIT normal balance, else `credit - debit`). -/
def account_balance_asof (txnsLE : List Transaction) (a : ChartAccount) : ℚ :=
  let dt := line_debit_total txnsLE a.account_id
  let ct := line_credit_total txnsLE a.account_id
  if a.normal_balance == "DEBIT" then dt - ct else ct - dt

/-- The active ASSET/LIABILITY/EQUITY chart accounts of the business. -/
def balance_sheet_accounts (db : Database) (business_id : Nat) : List ChartAccount :=
  (db.accounts.filter (fun a => a.business_id == business_id)).filter
    (fun a => a.is_active &&
      (a.category == "ASSET" || a.category == "LIABILITY" || a.category == "EQUITY"))

/-- The chart-of-accounts pass of `get_balance_sheet` restricted to one
category: opening-balance equity accounts are skipped, as are accounts with
no transaction line up to the as-of date. -/
def chart_entries (db : Database) (business_id as_of : Nat) (cat : String) : List BSEntry :=
  let txnsLE := get_transactions db.txns business_id none (some as_of)
  ((balance_sheet_accounts db business_id).filter
      (fun a => !(is_opening_balance_account a) && a.category == cat &&
        has_lines txnsLE a.account_id)).map
    (fun a =>
      { entry_id := some a.account_id
        account_code := a.account_code
        account_name := a.account_name
        balance := account_balance_asof txnsLE a
        is_bank_account := false
        is_credit_card := false
        is_loan := false })

/-- Accumulator `opening_balance_from_equity`: the summed balance of every
opening-balance equity account (computed even when the account has no
transactions). -/
def opening_balance_from_equity (db : Database) (business_id as_of : Nat) : ℚ :=
  let txnsLE := get_transactions db.txns business_id none (some as_of)
  (((balance_sheet_accounts db business_id).filter is_opening_balance_account).map
    (account_balance_asof txnsLE)).sum

/-- Fallback code `bank.get('account_code') or f'BANK-{bank_id}'`. -/
def bank_code (b : SubAccount) : String :=
  match b.account_code with
  | some c => c
  | none => "BANK-" ++ toString b.sid

/-- The asset entry built for a bank account: balance is the opening balance
(falling back to `current_balance`) plus `debit − credit` of the matched
chart account when it has lines. -/
def mk_bank_entry (txnsLE : List Transaction) (b : SubAccount)
    (chart : Option ChartAccount) : BSEntry :=
  let opening := b.opening_balance.getD b.current_balance
  let balance :=
    match chart with
    | some c =>
      if has_lines txnsLE c.account_id then
        opening + (line_debit_total txnsLE c.account_id - line_credit_total txnsLE c.account_id)
      else opening
    | none => opening
  { entry_id := chart.map (·.account_id)
    account_code := bank_code b
    account_name := b.account_name
    balance := balance
    is_bank_account := true
    is_credit_card := false
    is_loan := false }

/-- Accumulator of the bank-merge loop: the growing assets list and the
`added_bank_accounts` key set. -/
structure BankAcc where
  assets : List BSEntry
  added_keys : List (String × String × Nat)
  deriving DecidableEq, Repr

/-- One iteration of the bank-merge loop of `get_balance_sheet`: skip on a
repeated key, on a same-named bank entry already among the (current) assets,
or — when the bank's code matches a chart account — when that chart
account's id or code already appears among the chart-derived assets
(`existing_asset_ids` / `existing_asset_codes`, computed before the loop);
otherwise append the bank entry. -/
def bank_fold_step (all_accounts : List ChartAccount) (txnsLE : List Transaction)
    (existing_ids : List Nat) (existing_codes : List String)
    (acc : BankAcc) (b : SubAccount) : BankAcc :=
  let code := bank_code b
  let key := (code, b.account_name, b.sid)
  if acc.added_keys.contains key then acc
  else if b.account_name != "" &&
      acc.assets.any (fun a => a.account_name == b.account_name &&
        (a.is_bank_account || chars_startsWith "BANK-".data a.account_code.data)) then acc
  else
    match all_accounts.find? (fun a => a.account_code == code) with
    | some chart =>
      if existing_ids.contains chart.account_id then acc
      else if existing_codes.contains code then acc
      else
        { assets := acc.assets ++ [mk_bank_entry txnsLE b (some chart)]
          added_keys := acc.added_keys ++ [key] }
    | none =>
      { assets := acc.assets ++ [mk_bank_entry txnsLE b none]
        added_keys := acc.added_keys ++ [key] }

/-- The liability entry built for a credit-card account (appended with no
de-duplication). -/
def cc_entry (c : SubAccount) : BSEntry :=
  { entry_id := none
    account_code := match c.account_code with | some s => s | none => "CC-" ++ toString c.sid
    account_name := c.account_name
    balance := c.current_balance
    is_bank_account := false
    is_credit_card := true
    is_loan := false }

/-- The liability entry built for a loan account (appended with no
de-duplication). -/
def loan_entry (l : SubAccount) : BSEntry :=
  { entry_id := none
    account_code := match l.account_code with | some s => s | none => "LOAN-" ++ toString l.sid
    account_name := l.account_name
    balance := l.current_balance
    is_bank_account := false
    is_credit_card := false
    is_loan := true }

/-- The retained-earnings entry appended to the equity list. -/
def retained_earnings_entry (total : ℚ) : BSEntry :=
  { entry_id := none
    account_code := "RE"
    account_name := "Retained Earnings"
    balance := total
    is_bank_account := false
    is_credit_card := false
    is_loan := false }

/-- Source `get_balance_sheet` (Cosmos branch of `app.py`).  Prior-years net income
iterates `range(2000, year_int)` — the hard-coded `earliest_year = 2000` —
adding `pl_net_income` of each whole year to the opening balance; the
current-year figure runs from January 1 of the as-of year through the as-of
date. -/
def get_balance_sheet (db : Database) (business_id as_of : Nat) : BalanceSheetReport :=
  let all_accounts := db.accounts.filter (fun a => a.business_id == business_id)
  let txnsLE := get_transactions db.txns business_id none (some as_of)
  let assets0 := chart_entries db business_id as_of "ASSET"
  let liabilities0 := chart_entries db business_id as_of "LIABILITY"
  let equity0 := chart_entries db business_id as_of "EQUITY"
  let existing_ids := assets0.filterMap (·.entry_id)
  let existing_codes := (assets0.filter (fun a => a.account_code != "")).map (·.account_code)
  let banks := db.bank_accounts.filter (fun b => b.business_id == business_id && b.is_active)
  let bankRes := banks.foldl
    (bank_fold_step all_accounts txnsLE existing_ids existing_codes)
    { assets := assets0, added_keys := [] }
  let assets := bankRes.assets
  let ccs := db.credit_card_accounts.filter
    (fun c => c.business_id == business_id && c.is_active)
  let loans := db.loan_accounts.filter
    (fun l => l.business_id == business_id && l.is_active)
  let liabilities := liabilities0 ++ ccs.map cc_entry ++ loans.map loan_entry
  let year_int := as_of / 10000
  let opening := opening_balance_from_equity db business_id as_of
  let prior_pl := ((List.range' 2000 (year_int - 2000)).map
    (fun y => pl_net_income db.accounts db.txns business_id
      (y * 10000 + 101) (y * 10000 + 1231))).sum
  let prior := opening + prior_pl
  let current := pl_net_income db.accounts db.txns business_id
    (year_int * 10000 + 101) as_of
  let re_total := prior + current
  let equity := equity0 ++ [retained_earnings_entry re_total]
  { assets := assets
    total_assets := (assets.map (·.balance)).sum
    liabilities := liabilities
    total_liabilities := (liabilities.map (·.balance)).sum
    equity := equity
    total_equity := (equity.map (·.balance)).sum
    retained_earnings :=
      { prior_years_net_income := prior
        current_year_net_income := current
        total := re_total } }

/-! ## Statement importer (`import_transactions_csv`)

Strings are manipulated as explicit character lists; `String.data` converts
a literal. -/

/-- Python `str.strip` on a character list. -/
def stripChars (cs : List Char) : List Char :=
  ((cs.dropWhile Char.isWhitespace).reverse.dropWhile Char.isWhitespace).reverse

/-- Lowercase a character list. -/
def lowerChars (cs : List Char) : List Char :=
  cs.map Char.toLower

/-- Consume a double-quoted CSV field body after the opening quote, with
doubled quotes as escapes; returns the content and the rest after the
closing quote. -/
def csvQuoted : List Char → List Char × List Char
  | [] => ([], [])
  | '"' :: '"' :: rest =>
    let p := csvQuoted rest
    ('"' :: p.1, p.2)
  | '"' :: rest => ([], rest)
  | c :: rest =>
    let p := csvQuoted rest
    (c :: p.1, p.2)

/-- Consume an unquoted stretch up to the delimiter; returns the content and
the rest after the comma (or `none` at end of line). -/
def csvUntilComma : List Char → List Char × Option (List Char)
  | [] => ([], none)
  | ',' :: rest => ([], some rest)
  | c :: rest =>
    let p := csvUntilComma rest
    (c :: p.1, p.2)

/-- One record of `csv.reader(skipinitialspace=True, quotechar='"')` on a
single line: spaces after each delimiter are skipped, and a field starting
with a quote is read with quote escaping (fuel-recursive on the remaining
length). -/
def csvFieldsAux : Nat → List Char → List (List Char)
  | 0, _ => []
  | fuel + 1, cs =>
    let cs1 := cs.dropWhile (· == ' ')
    match cs1 with
    | '"' :: rest =>
      let p := csvQuoted rest
      let q := csvUntilComma p.2
      match q.2 with
      | none => [p.1 ++ q.1]
      | some rest2 => (p.1 ++ q.1) :: csvFieldsAux fuel rest2
    | _ =>
      let q := csvUntilComma cs1
      match q.2 with
      | none => [q.1]
      | some rest2 => q.1 :: csvFieldsAux fuel rest2

/-- Split one CSV line into its fields. -/
def csvFields (cs : List Char) : List (List Char) :=
  csvFieldsAux (cs.length + 1) cs

/-- Column set of format 1 (`format1_columns`). -/
def format1_columns : List (List Char) :=
  ["Details".data, "Posting Date".data, "Description".data, "Amount".data,
    "Type".data, "Balance".data, "Check or Slip #".data]

/-- Column set of format 2 (`format2_columns`). -/
def format2_columns : List (List Char) :=
  ["Posting Date".data, "Description".data, "Amount".data, "Balance".data]

/-- Column set of format 3 (`format3_columns`). -/
def format3_columns : List (List Char) :=
  ["Date".data, "Description".data, "Credit".data, "Debit".data, "Balance".data]

/-- Alias table (`column_aliases`). -/
def column_aliases : List (List Char × List Char) :=
  [("Date".data, "Posting Date".data),
    ("Running Bal.".data, "Balance".data),
    ("Running Balance".data, "Balance".data),
    ("Running Bal".data, "Balance".data)]

/-- Alias normalisation of one column name: exact match first, then
case-insensitive. -/
def apply_alias (col : List Char) : List Char :=
  match column_aliases.find? (fun p => p.1 == col) with
  | some p => p.2
  | none =>
    match column_aliases.find? (fun p => lowerChars p.1 == lowerChars col) with
    | some p => p.2
    | none => col

/-- Superset test: every schema column (stripped, lowered) occurs among the
row's lowered column names. -/
def row_has_columns (fmt : List (List Char)) (row_lower : List (List Char)) : Bool :=
  fmt.all (fun c => row_lower.contains (lowerChars (stripChars c)))

/-- Format-1 header test on a raw line (no alias mapping in the source for
this check). -/
def line_matches_format1 (line : List Char) : Bool :=
  let row := (csvFields line).map stripChars
  row_has_columns format1_columns (row.map lowerChars)

/-- Format-2 header test on a raw line (alias-mapped first). -/
def line_matches_format2 (line : List Char) : Bool :=
  let row := (csvFields line).map stripChars
  row_has_columns format2_columns ((row.map apply_alias).map lowerChars)

/-- Format-3 header test on a raw line (no alias mapping in the source for
this check). -/
def line_matches_format3 (line : List Char) : Bool :=
  let row := (csvFields line).map stripChars
  row_has_columns format3_columns (row.map lowerChars)

/-- Some format's header test succeeds on the line (the source tries
formats 1, 2, 3 in order and breaks at the first hit; which one hit only
affects the normalised header, not the chosen line). -/
def line_matches_any (line : List Char) : Bool :=
  line_matches_format1 line || line_matches_format2 line || line_matches_format3 line

/-- The header scan loop body: blank lines are skipped (`continue`), the
first matching line is selected with its index. -/
def find_header_scan : Nat → List (List Char) → Option (Nat × List Char)
  | _, [] => none
  | idx, l :: rest =>
    if stripChars l == [] then find_header_scan (idx + 1) rest
    else if line_matches_any l then some (idx, l)
    else find_header_scan (idx + 1) rest

/-- Header discovery of `import_transactions_csv`: the scan runs over
`lines[:20]` — the first 20 raw lines of the file. -/
def find_header (lines : List (List Char)) : Option (Nat × List Char) :=
  find_header_scan 0 (lines.take 20)

/-- Header discovery as claim C9 words it: scan up to the first 20
*non-empty* lines of the file and select the first match. -/
def find_header_claimed (lines : List (List Char)) : Option (List Char) :=
  ((lines.filter (fun l => !(stripChars l == []))).take 20).find? line_matches_any

/-- The import's header phase: an unmatched file fails with the
format-not-recognized error and nothing is imported. -/
def import_csv_header_phase (lines : List (List Char)) :
    Except String (Nat × List Char) :=
  match find_header lines with
  | none => .error "CSV format not recognized. Could not find header row in first 20 lines."
  | some h => .ok h

/-! ### Date parsing (`import_transactions_csv`, per-row) -/

/-- Gregorian leap-year rule (Python `calendar`/`datetime`). -/
def isLeapYear (y : Nat) : Bool :=
  y % 4 == 0 && (y % 100 != 0 || y % 400 == 0)

/-- Days in a month (the validity check `datetime` performs). -/
def daysInMonth (y m : Nat) : Nat :=
  if m == 2 then (if isLeapYear y then 29 else 28)
  else if m == 4 || m == 6 || m == 9 || m == 11 then 30
  else 31

/-- A parsed calendar date. -/
structure PDate where
  year : Nat
  month : Nat
  day : Nat
  deriving DecidableEq, Repr

/-- Nonempty all-digit field. -/
def allDigits (cs : List Char) : Bool :=
  !cs.isEmpty && cs.all Char.isDigit

/-- Numeric value of a digit field. -/
def digitsToNat (cs : List Char) : Nat :=
  cs.foldl (fun n c => n * 10 + (c.toNat - 48)) 0

/-- Python `splitOn` of a character list on one separator. -/
def splitOnChar (sep : Char) : List Char → List (List Char)
  | [] => [[]]
  | c :: rest =>
    let r := splitOnChar sep rest
    if c == sep then [] :: r
    else
      match r with
      | [] => [[c]]
      | f :: fs => (c :: f) :: fs

/-- The `%m` directive of `strptime`: one or two digits, value 1–12. -/
def parse_m (cs : List Char) : Option Nat :=
  if allDigits cs && cs.length ≤ 2 then
    let v := digitsToNat cs
    if 1 ≤ v && v ≤ 12 then some v else none
  else none

/-- The `%d` directive of `strptime`: one or two digits, value 1–31 (month
fit is checked afterwards by the `datetime` constructor). -/
def parse_d (cs : List Char) : Option Nat :=
  if allDigits cs && cs.length ≤ 2 then
    let v := digitsToNat cs
    if 1 ≤ v && v ≤ 31 then some v else none
  else none

/-- The `%y` directive of `strptime`: exactly two digits; CPython maps
values 0–68 to 2000–2068 and 69–99 to 1969–1999 (the POSIX pivot). -/
def parse_y2 (cs : List Char) : Option Nat :=
  if allDigits cs && cs.length == 2 then
    let v := digitsToNat cs
    some (if v ≤ 68 then 2000 + v else 1900 + v)
  else none

/-- The `%Y` directive of `strptime`: exactly four digits, year ≥ 1. -/
def parse_Y4 (cs : List Char) : Option Nat :=
  if allDigits cs && cs.length == 4 then
    let v := digitsToNat cs
    if 1 ≤ v then some v else none
  else none

/-- Final `datetime` day-of-month validation. -/
def mkDate (y m d : Nat) : Option PDate :=
  if 1 ≤ d && d ≤ daysInMonth y m then some ⟨y, m, d⟩ else none

/-- Format `%m/%d/%y`. -/
def strptime_mdy2 (s : List Char) : Option PDate :=
  match splitOnChar '/' s with
  | [ms, ds, ys] => do
    let m ← parse_m ms
    let d ← parse_d ds
    let y ← parse_y2 ys
    mkDate y m d
  | _ => none

/-- Format `%m/%d/%Y`. -/
def strptime_mdY4 (s : List Char) : Option PDate :=
  match splitOnChar '/' s with
  | [ms, ds, ys] => do
    let m ← parse_m ms
    let d ← parse_d ds
    let y ← parse_Y4 ys
    mkDate y m d
  | _ => none

/-- Format `%Y-%m-%d`. -/
def strptime_Y4md (s : List Char) : Option PDate :=
  match splitOnChar '-' s with
  | [ys, ms, ds] => do
    let y ← parse_Y4 ys
    let m ← parse_m ms
    let d ← parse_d ds
    mkDate y m d
  | _ => none

/-- Format `%m-%d-%Y`. -/
def strptime_mdY4_dash (s : List Char) : Option PDate :=
  match splitOnChar '-' s with
  | [ms, ds, ys] => do
    let m ← parse_m ms
    let d ← parse_d ds
    let y ← parse_Y4 ys
    mkDate y m d
  | _ => none

/-- Format `%d/%m/%Y`. -/
def strptime_dmY4 (s : List Char) : Option PDate :=
  match splitOnChar '/' s with
  | [ds, ms, ys] => do
    let d ← parse_d ds
    let m ← parse_m ms
    let y ← parse_Y4 ys
    mkDate y m d
  | _ => none

/-- Format `%d/%m/%y`. -/
def strptime_dmy2 (s : List Char) : Option PDate :=
  match splitOnChar '/' s with
  | [ds, ms, ys] => do
    let d ← parse_d ds
    let m ← parse_m ms
    let y ← parse_y2 ys
    mkDate y m d
  | _ => none

/-- The remapping applied after a successful `strptime`
(`if posting_date.year < 1900: ... < 100: ... < 50`): a sub-100 year is
pivoted at 50.  For the `%y` formats this branch is dead — `%y` always
yields a year in 1969–2068 — so it only ever fires for zero-padded tiny
`%Y` years. -/
def remap_two_digit_year (p : PDate) : PDate :=
  if p.year < 1900 then
    if p.year < 100 then
      if p.year < 50 then { p with year := 2000 + p.year }
      else { p with year := 1900 + p.year }
    else p
  else p

/-- The ordered `date_formats` loop: the first succeeding format wins, then
the remap runs. -/
def try_date_formats (s : List Char) : Option PDate :=
  (strptime_mdy2 s <|> strptime_mdY4 s <|> strptime_Y4md s <|>
    strptime_mdY4_dash s <|> strptime_dmY4 s <|> strptime_dmy2 s).map
    remap_two_digit_year

/-- The manual fallback parser
(`re.match(r'^(\d{1,2})/(\d{1,2})/(\d{2,4})$', ...)`), with the explicit
two-digit pivot at 50. -/
def fallback_parse_date (s : List Char) : Option PDate :=
  match splitOnChar '/' (stripChars s) with
  | [ms, ds, ys] =>
    if allDigits ms && ms.length ≤ 2 && allDigits ds && ds.length ≤ 2 &&
        allDigits ys && 2 ≤ ys.length && ys.length ≤ 4 then
      let month := digitsToNat ms
      let day := digitsToNat ds
      let y0 := digitsToNat ys
      let year :=
        if ys.length == 2 then (if y0 < 50 then 2000 + y0 else 1900 + y0) else y0
      if 1 ≤ year && year ≤ 9999 && 1 ≤ month && month ≤ 12 &&
          1 ≤ day && day ≤ daysInMonth year month then
        some ⟨year, month, day⟩
      else none
    else none
  | _ => none

/-- The complete date parse of one row: the `strptime` loop, then the
fallback. -/
def parse_posting_date (s : List Char) : Option PDate :=
  match try_date_formats s with
  | some p => some p
  | none => fallback_parse_date s

/-- Outcome counters of the import row loop. -/
structure ImportAcc where
  imported : Nat
  skipped : Nat
  errors : List String
  deriving DecidableEq, Repr

/-- The date-handling slice of the import row loop: a row whose (stripped)
date field parses is processed, an unparseable date appends the row-level
`Invalid date format` error, increments `skipped` and `continue`s — the
remaining rows are still processed.  The rest of the row pipeline (amounts,
type mapping, account resolution) is abstracted as a successful import. -/
def import_rows_dates (rows : List (List Char)) : ImportAcc :=
  rows.foldl
    (fun acc r =>
      match parse_posting_date r with
      | none =>
        { acc with
            skipped := acc.skipped + 1
            errors := acc.errors ++ ["Invalid date format"] }
      | some _ => { acc with imported := acc.imported + 1 })
    { imported := 0, skipped := 0, errors := [] }

/-- The prior-years figure exactly as claim C7 words it: the opening balance
plus the P&L net income of *every* year strictly before the as-of year. -/
def prior_years_net_income_claimed (db : Database) (business_id as_of : Nat) : ℚ :=
  opening_balance_from_equity db business_id as_of +
    ((List.range (as_of / 10000)).map
      (fun y => pl_net_income db.accounts db.txns business_id
        (y * 10000 + 101) (y * 10000 + 1231))).sum

/-! ## Concrete states used by counterexamples and witnesses -/

/-- A small chart of accounts: a cash asset and a rent expense under
business 1. -/
def exAccounts : List ChartAccount :=
  [⟨1, 1, "1000", "Cash", 1, "Asset", "ASSET", "DEBIT", true⟩,
    ⟨2, 1, "5000", "Rent", 5, "Expense", "EXPENSE", "DEBIT", true⟩]

/-- A ledger state with the example chart and no transactions yet. -/
def exSt : LedgerState := ⟨exAccounts, []⟩

/-- A balanced request whose two lines reference the same account (id 1). -/
def exDupReq : CreateRequest :=
  ⟨some 20240101, "dup", "ADJUSTMENT", [⟨some 1, 100, 0⟩, ⟨some 1, 0, 100⟩]⟩

/-- An unbalanced request (debit 100 vs credit 99) on two distinct
accounts. -/
def exUnbalancedReq : CreateRequest :=
  ⟨some 20240101, "unbal", "ADJUSTMENT", [⟨some 1, 100, 0⟩, ⟨some 2, 0, 99⟩]⟩

/-- C1, counterexample.  The claim says `create_transaction` rejects any
input whose lines repeat a `chart_of_account_id` and never persists such a
transaction; in fact the function has no duplicate-account check at all: the
balanced request `exDupReq`, both of whose lines post to account 1, is
accepted, and the persisted transaction's lines carry account 1 twice. -/
theorem create_transaction_accepts_duplicate_accounts :
    ((create_transaction exSt 1 exDupReq).toOption.map
      (fun r => (r.1.transactions.map (fun t => t.lines.map (·.chart_of_account_id)),
        r.2.lines.map (·.chart_of_account_id)))) = some ([[1, 1]], [1, 1]) := by
  simp [create_transaction, transform_lines, get_chart_of_account, total_debits,
    total_credits, next_transaction_id, exSt, exAccounts, exDupReq, Except.toOption]
  norm_num
  exact ⟨_, _, ⟨rfl, rfl⟩, rfl, rfl⟩

/-- The document a concurrent writer has committed: version token 2. -/
def exConcurrentDoc : CosmosDoc := ⟨"transaction-1", 1, some 1, 2, "writer B data"⟩

/-- The caller's stale snapshot of the same document: version token 1. -/
def exSnapshotDoc : CosmosDoc := ⟨"transaction-1", 1, some 1, 1, "caller data"⟩

/-- C2.  The claim says `update_item` fails with a concurrency conflict when
the version token has changed since the caller's snapshot.  In fact the
function reads the *current* `_etag` from the store, stamps it onto the
caller's item and replaces without any match condition, so with the stored
token (2) differing from the caller's snapshot token (1) the update still
succeeds and silently overwrites the concurrent writer's data. -/
theorem update_item_overwrites_concurrent_write :
    exSnapshotDoc.etag ≠ exConcurrentDoc.etag ∧
    (update_item [exConcurrentDoc] exSnapshotDoc).toOption =
      some ([⟨"transaction-1", 1, some 1, 2, "caller data"⟩],
        ⟨"transaction-1", 1, some 1, 2, "caller data"⟩) := by
  decide

/-- C4.  On the M/D/YY date `1/2/55` the importer's `strptime('%m/%d/%y')`
path succeeds with CPython's POSIX pivot (two-digit years 0–68 land in the
2000s), yielding 2055-01-02 — while the same function's own manual fallback
rule (and the spec) map year 55 to 1955.  Unparseable dates only add a
row-level error and skip the row; the remaining rows of the batch are still
imported. -/
theorem parse_posting_date_pivot :
    parse_posting_date "1/2/55".data = some ⟨2055, 1, 2⟩ ∧
    fallback_parse_date "1/2/55".data = some ⟨1955, 1, 2⟩ ∧
    parse_posting_date "31/12/55".data = some ⟨2055, 12, 31⟩ ∧
    parse_posting_date "1/2/85".data = some ⟨1985, 1, 2⟩ ∧
    parse_posting_date "2024-01-31".data = some ⟨2024, 1, 31⟩ ∧
    parse_posting_date "13/13/55".data = none ∧
    import_rows_dates ["1/2/24".data, "13/13/55".data, "2/3/24".data] =
      ⟨2, 1, ["Invalid date format"]⟩ := by
  decide

/-- Helper: when every requested line resolves to an account,
`transform_lines` succeeds and preserves the requested account ids in
order (duplicates included). -/
theorem transform_lines_ok (accounts : List ChartAccount) (business_id : Nat)
    (lines : List ReqLine)
    (h : ∀ l ∈ lines, ∃ i, l.chart_of_account_id = some i ∧
      (get_chart_of_account accounts i business_id).isSome) :
    ∀ idx, ∃ ts, transform_lines accounts business_id idx lines = .ok ts ∧
      ts.map (·.chart_of_account_id) =
        lines.map (fun l => l.chart_of_account_id.getD 0) := by
  induction lines with
  | nil => intro idx; exact ⟨[], rfl, rfl⟩
  | cons hd tl ih =>
    intro idx
    obtain ⟨i, hi, hsome⟩ := h hd (by simp)
    obtain ⟨acc, hacc⟩ := Option.isSome_iff_exists.mp hsome
    obtain ⟨ts, hts, hmap⟩ := ih (fun l hl => h l (by simp [hl])) (idx + 1)
    refine ⟨{ transaction_line_id := idx + 1
              chart_of_account_id := i
              debit_amount := hd.debit_amount
              credit_amount := hd.credit_amount
              account_code := acc.account_code
              account_name := acc.account_name } :: ts, ?_, ?_⟩
    · simp only [transform_lines, hi, hacc, hts]
    · simp [hmap, hi]

/-- C1, amended.  `create_transaction` performs no duplicate-account check:
any request that passes the date, line-count, balance and account-existence
checks is committed, and the persisted lines carry exactly the requested
account ids in order — duplicates included. -/
theorem create_transaction_no_duplicate_check (st : LedgerState) (business_id : Nat)
    (req : CreateRequest)
    (hd : req.transaction_date.isSome)
    (hl : 2 ≤ req.lines.length)
    (hb : |total_debits req.lines - total_credits req.lines| ≤ 1 / 100)
    (ha : ∀ l ∈ req.lines, ∃ i, l.chart_of_account_id = some i ∧
      (get_chart_of_account st.accounts i business_id).isSome) :
    ∃ st' txn, create_transaction st business_id req = .ok (st', txn) ∧
      txn.lines.map (·.chart_of_account_id) =
        req.lines.map (fun l => l.chart_of_account_id.getD 0) ∧
      st'.transactions = st.transactions ++ [txn] := by
  obtain ⟨d, hdd⟩ := Option.isSome_iff_exists.mp hd
  obtain ⟨ts, hts, hmap⟩ := transform_lines_ok st.accounts business_id req.lines ha 0
  refine ⟨⟨st.accounts, st.transactions ++
      [⟨next_transaction_id st.transactions business_id, business_id, d,
        req.description, req.transaction_type, total_debits req.lines, ts⟩]⟩,
    ⟨next_transaction_id st.transactions business_id, business_id, d,
      req.description, req.transaction_type, total_debits req.lines, ts⟩,
    ?_, hmap, rfl⟩
  unfold create_transaction
  rw [hdd]
  simp only [if_neg (by omega : ¬ req.lines.length < 2), gt_iff_lt,
    if_neg (not_lt.mpr hb), hts]

/-- C1 witness: the amended theorem applied at the balanced duplicate-account
request, whose hypotheses all hold there. -/
theorem create_transaction_no_duplicate_check_witness :
    ∃ st' txn, create_transaction exSt 1 exDupReq = .ok (st', txn) ∧
      txn.lines.map (·.chart_of_account_id) =
        exDupReq.lines.map (fun l => l.chart_of_account_id.getD 0) ∧
      st'.transactions = exSt.transactions ++ [txn] :=
  create_transaction_no_duplicate_check exSt 1 exDupReq (by decide) (by decide)
    (by norm_num [total_debits, total_credits, exDupReq])
    (by
      intro l hl
      simp only [exDupReq, List.mem_cons, List.not_mem_nil, or_false] at hl
      rcases hl with rfl | rfl <;> exact ⟨1, rfl, by decide⟩)

/-- C3.  `create_transaction` commits only requests with at least two lines
and `|Σdebit − Σcredit| ≤ 0.01`, stores `amount = Σdebit`, and appends
exactly the one committed document; a request whose totals differ by more
than 0.01 (and which reaches the balance check) fails with the
unbalanced-entry error, so nothing is persisted. -/
theorem create_transaction_balance_validation (st : LedgerState) (business_id : Nat)
    (req : CreateRequest) :
    (∀ st' txn, create_transaction st business_id req = .ok (st', txn) →
      2 ≤ req.lines.length ∧
      |total_debits req.lines - total_credits req.lines| ≤ 1 / 100 ∧
      txn.amount = total_debits req.lines ∧
      st'.transactions = st.transactions ++ [txn]) ∧
    (req.transaction_date.isSome → 2 ≤ req.lines.length →
      1 / 100 < |total_debits req.lines - total_credits req.lines| →
      create_transaction st business_id req = .error "Debits must equal credits") := by
  constructor
  · intro st' txn h
    cases hdate : req.transaction_date with
    | none =>
      unfold create_transaction at h
      rw [hdate] at h
      exact absurd h (by simp)
    | some d =>
      unfold create_transaction at h
      rw [hdate] at h
      simp only [gt_iff_lt] at h
      by_cases hlen : req.lines.length < 2
      · rw [if_pos hlen] at h; exact absurd h (by simp)
      · rw [if_neg hlen] at h
        by_cases hbal : 1 / 100 < |total_debits req.lines - total_credits req.lines|
        · rw [if_pos hbal] at h; exact absurd h (by simp)
        · rw [if_neg hbal] at h
          cases htr : transform_lines st.accounts business_id 0 req.lines with
          | error e => rw [htr] at h; exact absurd h (by simp)
          | ok ts =>
            rw [htr] at h
            simp only [Except.ok.injEq, Prod.mk.injEq] at h
            obtain ⟨h1, h2⟩ := h
            refine ⟨by omega, not_lt.mp hbal, ?_, ?_⟩
            · rw [← h2]
            · rw [← h1, ← h2]
  · intro hdate hlen hbal
    obtain ⟨d, hdd⟩ := Option.isSome_iff_exists.mp hdate
    unfold create_transaction
    rw [hdd]
    simp only [if_neg (by omega : ¬ req.lines.length < 2), gt_iff_lt, if_pos hbal]

/-- C3 witness: the spec scenario — lines debit 100 / credit 99 — fails with
the unbalanced-entry error. -/
theorem create_transaction_balance_validation_witness :
    create_transaction exSt 1 exUnbalancedReq = .error "Debits must equal credits" :=
  (create_transaction_balance_validation exSt 1 exUnbalancedReq).2 (by decide) (by decide)
    (by norm_num [total_debits, total_credits, exUnbalancedReq])

/-! ## Bulk update: concrete data, duplicate refusal and frame theorems -/

/-- A third chart account (revenue) used by the bulk-update examples. -/
def exRevenueAccount : ChartAccount :=
  ⟨3, 1, "4000", "Sales", 4, "Revenue", "REVENUE", "CREDIT", true⟩

/-- The target chart account of the bulk reassignment (expense,
debit-normal). -/
def exTargetAccount : ChartAccount :=
  ⟨99, 1, "5099", "Travel", 5, "Expense", "EXPENSE", "DEBIT", true⟩

/-- Chart of accounts for the bulk-update examples. -/
def exAccounts6 : List ChartAccount :=
  exAccounts ++ [exRevenueAccount, exTargetAccount]

/-- A balanced three-line transaction: two debit lines (accounts 1 and 2)
and one credit line (account 3). -/
def exTxn6 : BTxn :=
  ⟨1, 1, 20240101, "split purchase", 100, [⟨1, 1, 50, 0⟩, ⟨2, 2, 50, 0⟩, ⟨3, 3, 0, 100⟩]⟩

/-- The transaction `exTxn6` after bulk reassignment of its debit lines to
account 99: two lines now point at the same account. -/
def exTxn6' : BTxn :=
  ⟨1, 1, 20240101, "split purchase", 100, [⟨1, 99, 50, 0⟩, ⟨2, 99, 50, 0⟩, ⟨3, 3, 0, 100⟩]⟩

/-- A two-line transaction whose credit line already sits on the target
account 99. -/
def exTxn6b : BTxn :=
  ⟨2, 1, 20240102, "already on target", 100, [⟨1, 1, 100, 0⟩, ⟨2, 99, 0, 100⟩]⟩

/-- C6, counterexample.  The claim says the bulk update refuses (skips and
reports) any reassignment that would leave a transaction with two lines on
the same account, under every filter.  Under `DEBIT_ONLY` on `exTxn6`, both
debit lines are selected and both are rewritten to the target account 99:
the committed transaction has two lines on account 99 and the error list is
empty. -/
theorem bulk_update_creates_duplicate_accounts :
    (bulk_update_transactions exAccounts6 [exTxn6] 1 [1] 99 "DEBIT_ONLY").toOption.map
      (fun r => (r.1.map (fun t => t.lines.map (·.chart_of_account_id)), r.2.2.2)) =
      some ([[99, 99, 3]], []) := by
  decide

/-- C6, amended.  The duplicate check only inspects lines *outside* the
selection: when the selection is non-empty and a non-selected line already
carries the target account, the transaction is refused — left untouched and
reported — and the batch loop then just accumulates the message.  (Nothing,
however, prevents two selected lines from both receiving the target
account, as the counterexample shows.) -/
theorem bulk_process_refuses_outside_duplicate (txn : BTxn) (line_filter : String)
    (target : Nat) (category normal_balance : String)
    (h2 : 2 ≤ txn.lines.length)
    (hsel : lines_to_update txn.lines line_filter target category normal_balance ≠ [])
    (l : BLine) (hl : l ∈ txn.lines)
    (hout : l.line_id ∉
      (lines_to_update txn.lines line_filter target category normal_balance).map (·.line_id))
    (hacct : l.chart_of_account_id = target) :
    bulk_process_txn txn line_filter target category normal_balance =
      (txn, 0, some "Cannot update - would create duplicate accounts") ∧
    ∀ acc tid, acc.txns.find? (fun t => t.txn_id == tid) = some txn →
      bulk_step line_filter target category normal_balance acc tid =
        { acc with errors :=
            acc.errors ++ ["Cannot update - would create duplicate accounts"] } := by
  have hproc : bulk_process_txn txn line_filter target category normal_balance =
      (txn, 0, some "Cannot update - would create duplicate accounts") := by
    unfold bulk_process_txn
    rw [if_neg (by omega)]
    have hcond : (!(lines_to_update txn.lines line_filter target category
          normal_balance).isEmpty &&
        (txn.lines.filter (fun x =>
          !((lines_to_update txn.lines line_filter target category
              normal_balance).map (·.line_id)).contains x.line_id)).any
          (fun x => x.chart_of_account_id == target)) = true := by
      rw [Bool.and_eq_true]
      constructor
      · simp only [Bool.not_eq_true', List.isEmpty_eq_false]
        exact hsel
      · refine List.any_eq_true.mpr ⟨l, ?_, by simp [hacct]⟩
        exact List.mem_filter.mpr ⟨hl, by simp [hout]⟩
    rw [if_pos hcond]
  refine ⟨hproc, ?_⟩
  intro acc tid hfind
  unfold bulk_step
  simp only [hfind, hproc]

/-- C6 witness: a transaction whose non-selected credit line already sits on
the target account is refused and reported, and left untouched by the batch
step. -/
theorem bulk_process_refuses_outside_duplicate_witness :
    bulk_process_txn exTxn6b "DEBIT_ONLY" 99 "EXPENSE" "DEBIT" =
      (exTxn6b, 0, some "Cannot update - would create duplicate accounts") ∧
    ∀ acc tid, acc.txns.find? (fun t => t.txn_id == tid) = some exTxn6b →
      bulk_step "DEBIT_ONLY" 99 "EXPENSE" "DEBIT" acc tid =
        { acc with errors :=
            acc.errors ++ ["Cannot update - would create duplicate accounts"] } :=
  bulk_process_refuses_outside_duplicate exTxn6b "DEBIT_ONLY" 99 "EXPENSE" "DEBIT"
    (by decide) (by decide) ⟨2, 99, 0, 100⟩ (by decide) (by decide) rfl

/-- Per-line frame relation of the bulk update: only the account id may
change. -/
def line_frame (l l' : BLine) : Prop :=
  l'.line_id = l.line_id ∧ l'.debit_amount = l.debit_amount ∧
    l'.credit_amount = l.credit_amount

/-- Per-transaction frame relation of the bulk update: identity, date,
description, amount, and every line's id and amounts are unchanged. -/
def txn_frame (t t' : BTxn) : Prop :=
  t'.txn_id = t.txn_id ∧ t'.business_id = t.business_id ∧
    t'.transaction_date = t.transaction_date ∧ t'.description = t.description ∧
    t'.amount = t.amount ∧ List.Forall₂ line_frame t.lines t'.lines

/-- Total debits over a relational transaction's lines. -/
def btxn_debits (t : BTxn) : ℚ := (t.lines.map (·.debit_amount)).sum

/-- Total credits over a relational transaction's lines. -/
def btxn_credits (t : BTxn) : ℚ := (t.lines.map (·.credit_amount)).sum

/-- The double-entry balance invariant on a relational transaction. -/
def btxn_balanced (t : BTxn) : Prop := |btxn_debits t - btxn_credits t| ≤ 1 / 100

theorem txn_frame_refl (t : BTxn) : txn_frame t t :=
  ⟨rfl, rfl, rfl, rfl, rfl, List.forall₂_same.mpr (fun _ _ => ⟨rfl, rfl, rfl⟩)⟩

theorem line_frame_trans {a b c : BLine} (h1 : line_frame a b) (h2 : line_frame b c) :
    line_frame a c :=
  ⟨h2.1.trans h1.1, h2.2.1.trans h1.2.1, h2.2.2.trans h1.2.2⟩

theorem forall₂_line_frame_trans : ∀ {a b c : List BLine},
    List.Forall₂ line_frame a b → List.Forall₂ line_frame b c →
      List.Forall₂ line_frame a c := by
  intro a b c h1 h2
  induction h1 generalizing c with
  | nil => cases h2; exact List.Forall₂.nil
  | cons hab h ih =>
    cases h2 with
    | cons hbc h2' => exact List.Forall₂.cons (line_frame_trans hab hbc) (ih h2')

theorem txn_frame_trans {a b c : BTxn} (h1 : txn_frame a b) (h2 : txn_frame b c) :
    txn_frame a c := by
  obtain ⟨hid, hbus, hdat, hdesc, hamt, hlin⟩ := h1
  obtain ⟨gid, gbus, gdat, gdesc, gamt, glin⟩ := h2
  refine ⟨gid.trans hid, gbus.trans hbus, gdat.trans hdat, gdesc.trans hdesc,
    gamt.trans hamt, forall₂_line_frame_trans hlin glin⟩

/-- Processing one transaction only rewrites line account ids. -/
theorem bulk_process_txn_frame (txn : BTxn) (line_filter : String) (target : Nat)
    (category normal_balance : String) :
    txn_frame txn (bulk_process_txn txn line_filter target category normal_balance).1 := by
  unfold bulk_process_txn
  by_cases h2 : txn.lines.length < 2
  · rw [if_pos h2]; exact txn_frame_refl txn
  · rw [if_neg h2]
    set sel_ids := (lines_to_update txn.lines line_filter target category
      normal_balance).map (·.line_id) with hsel
    by_cases hc : (!(lines_to_update txn.lines line_filter target category
          normal_balance).isEmpty &&
        (txn.lines.filter (fun x => !sel_ids.contains x.line_id)).any
          (fun x => x.chart_of_account_id == target)) = true
    · rw [if_pos hc]; exact txn_frame_refl txn
    · rw [if_neg hc]
      refine ⟨rfl, rfl, rfl, rfl, rfl, ?_⟩
      rw [List.forall₂_map_right_iff]
      refine List.forall₂_same.mpr (fun x _ => ?_)
      unfold line_frame
      refine ⟨?_, ?_, ?_⟩ <;> (split <;> rfl)

/-- A frame-related transaction has the same line-amount sums. -/
theorem frame_sums {ls ls' : List BLine} (h : List.Forall₂ line_frame ls ls') :
    (ls'.map (·.debit_amount)).sum = (ls.map (·.debit_amount)).sum ∧
    (ls'.map (·.credit_amount)).sum = (ls.map (·.credit_amount)).sum := by
  induction h with
  | nil => exact ⟨rfl, rfl⟩
  | cons hab h ih =>
    refine ⟨?_, ?_⟩ <;> simp [hab.2.1, hab.2.2, ih.1, ih.2]

/-- Frame preservation implies balance preservation. -/
theorem txn_frame_balanced {t t' : BTxn} (h : txn_frame t t') :
    btxn_balanced t → btxn_balanced t' := by
  intro hb
  have hs := frame_sums h.2.2.2.2.2
  unfold btxn_balanced btxn_debits btxn_credits at *
  rw [hs.1, hs.2]
  exact hb

/-- Frame-related lists have equal transaction-id images. -/
theorem frame_ids {txns ts : List BTxn} (h : List.Forall₂ txn_frame txns ts) :
    ts.map (·.txn_id) = txns.map (·.txn_id) := by
  induction h with
  | nil => rfl
  | cons hab h ih => simp [hab.1, ih]

/-- Replacing the (unique) transaction with a given id by a frame-related
update preserves the frame relation with the original list. -/
theorem map_replace_frame {txns ts : List BTxn}
    (h : List.Forall₂ txn_frame txns ts)
    (hnd : (ts.map (·.txn_id)).Nodup)
    (t t' : BTxn) (ht : t ∈ ts) (hf : txn_frame t t') :
    List.Forall₂ txn_frame txns
      (ts.map (fun u => if u.txn_id == t.txn_id then t' else u)) := by
  induction h with
  | nil => simp at ht
  | cons hou htail ih =>
    rename_i o u txns₀ ts₀
    simp only [List.map_cons, List.map] at hnd ⊢
    rw [List.nodup_cons] at hnd
    by_cases hcu : u.txn_id = t.txn_id
    · rcases List.mem_cons.mp ht with rfl | htl
      · rw [if_pos (by simp [hcu])]
        have htail_id : ts₀.map (fun u => if u.txn_id == t.txn_id then t' else u) = ts₀ := by
          conv_rhs => rw [show ts₀ = ts₀.map id from (List.map_id ts₀).symm]
          apply List.map_congr_left
          intro v hv
          rw [if_neg (by
            simp only [beq_iff_eq]
            intro hveq
            exact hnd.1 (by rw [← hcu, ← hveq]; exact List.mem_map_of_mem _ hv))]
          rfl
        rw [htail_id]
        exact List.Forall₂.cons (txn_frame_trans hou hf) htail
      · exfalso
        exact hnd.1 (by rw [hcu]; exact List.mem_map_of_mem _ htl)
    · rw [if_neg (by simp [hcu])]
      have htl : t ∈ ts₀ := by
        rcases List.mem_cons.mp ht with rfl | htl
        · exact absurd rfl hcu
        · exact htl
      exact List.Forall₂.cons hou (ih hnd.2 htl)

/-- One bulk-update step preserves the frame relation with the original
transaction list. -/
theorem bulk_step_frame {txns : List BTxn} (line_filter : String) (target : Nat)
    (category normal_balance : String) (acc : BulkAcc) (tid : Nat)
    (hnd : (txns.map (·.txn_id)).Nodup)
    (h : List.Forall₂ txn_frame txns acc.txns) :
    List.Forall₂ txn_frame txns
      (bulk_step line_filter target category normal_balance acc tid).txns := by
  unfold bulk_step
  cases hfind : acc.txns.find? (fun t => t.txn_id == tid) with
  | none => simp only [hfind]; exact h
  | some t =>
    simp only [hfind]
    cases herr : (bulk_process_txn t line_filter target category normal_balance).2.2 with
    | some e => simp only [herr]; exact h
    | none =>
      simp only [herr]
      exact map_replace_frame h (by rw [frame_ids h]; exact hnd) t _
        (List.mem_of_find?_eq_some hfind)
        (bulk_process_txn_frame t line_filter target category normal_balance)

/-- The whole bulk-update loop preserves the frame relation. -/
theorem bulk_foldl_frame {txns : List BTxn} (line_filter : String) (target : Nat)
    (category normal_balance : String) (tids : List Nat) (acc : BulkAcc)
    (hnd : (txns.map (·.txn_id)).Nodup)
    (h : List.Forall₂ txn_frame txns acc.txns) :
    List.Forall₂ txn_frame txns
      (tids.foldl (bulk_step line_filter target category normal_balance) acc).txns := by
  induction tids generalizing acc with
  | nil => exact h
  | cons tid rest ih =>
    exact ih _ (bulk_step_frame line_filter target category normal_balance acc tid hnd h)

/-- C10.  The bulk update only rewrites line account ids: for every
transaction of the batch, the committed version keeps the transaction's id,
business, date, description and cached amount, and every line's id, debit
and credit — so a transaction that was balanced before the bulk
reassignment is balanced after it. -/
theorem bulk_update_preserves_amounts (accounts : List ChartAccount)
    (txns : List BTxn) (business_id : Nat) (tids : List Nat) (target : Nat)
    (line_filter : String)
    (hnd : (txns.map (·.txn_id)).Nodup)
    (txns' : List BTxn) (uc lu : Nat) (errs : List String)
    (h : bulk_update_transactions accounts txns business_id tids target line_filter =
      .ok (txns', uc, lu, errs)) :
    List.Forall₂ (fun t t' => txn_frame t t' ∧ (btxn_balanced t → btxn_balanced t'))
      txns txns' := by
  unfold bulk_update_transactions at h
  by_cases hemp : tids.isEmpty = true
  · rw [if_pos hemp] at h; exact absurd h (by simp)
  · rw [if_neg hemp] at h
    cases hga : get_chart_of_account accounts target business_id with
    | none => rw [hga] at h; exact absurd h (by simp)
    | some chart =>
      simp only [hga] at h
      by_cases hall : (!(tids.all (fun tid =>
          txns.any (fun t => t.txn_id == tid && t.business_id == business_id)))) = true
      · rw [if_pos hall] at h; exact absurd h (by simp)
      · rw [if_neg hall] at h
        simp only [Except.ok.injEq, Prod.mk.injEq] at h
        obtain ⟨h1, -⟩ := h
        have hfold := @bulk_foldl_frame txns line_filter target
          chart.category chart.normal_balance tids
          { txns := txns, updated_count := 0, lines_updated := 0, errors := [] }
          hnd (List.forall₂_same.mpr (fun t _ => txn_frame_refl t))
        rw [h1] at hfold
        exact List.Forall₂.imp (fun t t' hf => ⟨hf, txn_frame_balanced hf⟩) hfold

/-- Helper: recover an `Except` success equation from its `toOption`. -/
theorem except_eq_ok_of_toOption {e : Except String (List BTxn × Nat × Nat × List String)}
    {a : List BTxn × Nat × Nat × List String} (h : e.toOption = some a) : e = .ok a := by
  cases e with
  | error err => simp [Except.toOption] at h
  | ok v => simp [Except.toOption] at h; rw [h]

/-- C10 witness: the bulk update applied to the concrete batch — the
reassigned transaction keeps its amounts and stays balanced. -/
theorem bulk_update_preserves_amounts_witness :
    List.Forall₂ (fun t t' => txn_frame t t' ∧ (btxn_balanced t → btxn_balanced t'))
      [exTxn6] [exTxn6'] :=
  bulk_update_preserves_amounts exAccounts6 [exTxn6] 1 [1] 99 "DEBIT_ONLY"
    (by decide) [exTxn6'] 1 2 [] (except_eq_ok_of_toOption (by decide))

/-! ## P&L theorems (C8) -/

/-- An account with no line among the given transactions accumulates zero
debit and credit totals. -/
theorem line_totals_zero_of_not_has_lines (txns : List Transaction) (aid : Nat)
    (h : has_lines txns aid = false) :
    line_debit_total txns aid = 0 ∧ line_credit_total txns aid = 0 := by
  unfold has_lines at h
  rw [List.any_eq_false] at h
  have hfilter : ∀ t ∈ txns,
      t.lines.filter (fun l => l.chart_of_account_id == aid) = [] := by
    intro t ht
    rw [List.filter_eq_nil_iff]
    intro a ha
    have hna := h t ht
    rw [Bool.not_eq_true, List.any_eq_false] at hna
    exact hna a ha
  unfold line_debit_total line_credit_total
  refine ⟨List.sum_eq_zero ?_, List.sum_eq_zero ?_⟩ <;>
  · intro x hx
    rw [List.mem_map] at hx
    obtain ⟨t, ht, rfl⟩ := hx
    rw [hfilter t ht]
    rfl

/-- Characterisation of one P&L account entry: its category is REVENUE or
EXPENSE, its balance is the claim's Σcredit−Σdebit / Σdebit−Σcredit formula
over the date-filtered transactions, and it cleared the 0.01 cutoff. -/
theorem mem_profit_loss_accounts {accounts : List ChartAccount}
    {txns : List Transaction} {business_id start_date end_date : Nat} {p : PLAccount}
    (hp : p ∈ get_profit_loss_accounts accounts txns business_id start_date end_date) :
    (p.account.category = "REVENUE" ∨ p.account.category = "EXPENSE") ∧
    p.balance = (if p.account.category = "REVENUE" then
        line_credit_total (get_transactions txns business_id (some start_date)
          (some end_date)) p.account.account_id -
        line_debit_total (get_transactions txns business_id (some start_date)
          (some end_date)) p.account.account_id
      else
        line_debit_total (get_transactions txns business_id (some start_date)
          (some end_date)) p.account.account_id -
        line_credit_total (get_transactions txns business_id (some start_date)
          (some end_date)) p.account.account_id) ∧
    (1 : ℚ) / 100 ≤ |p.balance| := by
  unfold get_profit_loss_accounts at hp
  obtain ⟨hmem, hcut⟩ := List.mem_filter.mp hp
  rw [decide_eq_true_eq] at hcut
  obtain ⟨a, ha, hpa⟩ := List.mem_map.mp hmem
  obtain ⟨-, hcat⟩ := List.mem_filter.mp ha
  rw [Bool.or_eq_true, beq_iff_eq, beq_iff_eq] at hcat
  subst hpa
  by_cases hline : has_lines (get_transactions txns business_id (some start_date)
      (some end_date)) a.account_id = true
  · refine ⟨by simpa [hline] using hcat, ?_, hcut⟩
    by_cases hrev : a.category = "REVENUE" <;> simp [hline, hrev]
  · have hz := line_totals_zero_of_not_has_lines
      (get_transactions txns business_id (some start_date) (some end_date)) a.account_id
      (by simpa using hline)
    refine ⟨by simpa [hline] using hcat, ?_, hcut⟩
    by_cases hrev : a.category = "REVENUE" <;> simp [hline, hrev, hz.1, hz.2]

/-- Soundness of a group list: every member satisfies `P` and every group
total is the sum of its members' balances. -/
def groups_sound (P : PLAccount → Prop) (gs : List PLGroup) : Prop :=
  ∀ g ∈ gs, (∀ q ∈ g.accounts, P q) ∧ g.total = (g.accounts.map (·.balance)).sum

theorem add_to_groups_sound {P : PLAccount → Prop} {gs : List PLGroup} {p : PLAccount}
    (hg : groups_sound P gs) (hp : P p) : groups_sound P (add_to_groups gs p) := by
  unfold add_to_groups
  split
  · intro g hgmem
    rw [List.mem_map] at hgmem
    obtain ⟨g₀, hg₀, rfl⟩ := hgmem
    by_cases hid : (g₀.account_type_id == p.account.account_type_id) = true
    · rw [if_pos hid]
      obtain ⟨hq, htot⟩ := hg g₀ hg₀
      constructor
      · intro q hqmem
        rcases List.mem_append.mp hqmem with hold | hnew
        · exact hq q hold
        · rw [List.mem_singleton.mp hnew]; exact hp
      · simp [htot]
    · rw [if_neg hid]
      exact hg g₀ hg₀
  · intro g hgmem
    rcases List.mem_append.mp hgmem with hold | hnew
    · exact hg g hold
    · rw [List.mem_singleton.mp hnew]
      exact ⟨fun q hq => by rw [List.mem_singleton.mp hq]; exact hp, by simp⟩

theorem foldl_add_groups_sound (P : PLAccount → Prop) (cond : PLAccount → Bool)
    (l : List PLAccount) (h : ∀ p ∈ l, cond p = true → P p) :
    ∀ gs, groups_sound P gs →
      groups_sound P
        (l.foldl (fun gs p => if cond p then add_to_groups gs p else gs) gs) := by
  induction l with
  | nil => intro gs hgs; exact hgs
  | cons p rest ih =>
    intro gs hgs
    rw [List.foldl_cons]
    refine ih (fun q hq hcq => h q (List.mem_cons_of_mem _ hq) hcq) _ ?_
    by_cases hc : cond p = true
    · rw [if_pos hc]
      exact add_to_groups_sound hgs (h p (List.mem_cons_self _ _) hc)
    · rw [if_neg hc]
      exact hgs

/-- C8.  In the P&L report, every REVENUE account entry's balance is
`Σcredit − Σdebit` and every EXPENSE entry's is `Σdebit − Σcredit` over the
lines of transactions dated within the range; every listed entry cleared the
`|balance| < 0.01` cutoff; each group's total is the sum of its members'
balances; the report totals are the sums of the per-type subtotals; and
`net_income = total_revenue − total_expenses`. -/
theorem get_profit_loss_spec (accounts : List ChartAccount) (txns : List Transaction)
    (business_id start_date end_date : Nat) (g : PLGroup) (p : PLAccount) :
    (g ∈ (get_profit_loss accounts txns business_id start_date end_date).revenue →
      p ∈ g.accounts →
      p.account.category = "REVENUE" ∧
      p.balance = line_credit_total (get_transactions txns business_id (some start_date)
          (some end_date)) p.account.account_id -
        line_debit_total (get_transactions txns business_id (some start_date)
          (some end_date)) p.account.account_id ∧
      (1 : ℚ) / 100 ≤ |p.balance|) ∧
    (g ∈ (get_profit_loss accounts txns business_id start_date end_date).expenses →
      p ∈ g.accounts →
      p.account.category = "EXPENSE" ∧
      p.balance = line_debit_total (get_transactions txns business_id (some start_date)
          (some end_date)) p.account.account_id -
        line_credit_total (get_transactions txns business_id (some start_date)
          (some end_date)) p.account.account_id ∧
      (1 : ℚ) / 100 ≤ |p.balance|) ∧
    ((g ∈ (get_profit_loss accounts txns business_id start_date end_date).revenue ∨
       g ∈ (get_profit_loss accounts txns business_id start_date end_date).expenses) →
      g.total = (g.accounts.map (·.balance)).sum) ∧
    (get_profit_loss accounts txns business_id start_date end_date).total_revenue =
      (((get_profit_loss accounts txns business_id start_date end_date).revenue).map
        (·.total)).sum ∧
    (get_profit_loss accounts txns business_id start_date end_date).total_expenses =
      (((get_profit_loss accounts txns business_id start_date end_date).expenses).map
        (·.total)).sum ∧
    (get_profit_loss accounts txns business_id start_date end_date).net_income =
      (get_profit_loss accounts txns business_id start_date end_date).total_revenue -
        (get_profit_loss accounts txns business_id start_date end_date).total_expenses := by
  have hrev_eq : (get_profit_loss accounts txns business_id start_date end_date).revenue =
      (get_profit_loss_accounts accounts txns business_id start_date end_date).foldl
        (fun gs p => if p.account.category == "REVENUE" then add_to_groups gs p else gs)
        [] := rfl
  have hrev_sound : groups_sound
      (fun q => q ∈ get_profit_loss_accounts accounts txns business_id start_date end_date ∧
        q.account.category = "REVENUE")
      (get_profit_loss accounts txns business_id start_date end_date).revenue := by
    rw [hrev_eq]
    exact foldl_add_groups_sound _ _ _ (fun q hq hcq => ⟨hq, by simpa using hcq⟩) []
      (fun g hg => absurd hg (List.not_mem_nil g))
  have hexp_eq : (get_profit_loss accounts txns business_id start_date end_date).expenses =
      (get_profit_loss_accounts accounts txns business_id start_date end_date).foldl
        (fun gs p => if p.account.category == "REVENUE" then gs else add_to_groups gs p)
        [] := rfl
  have hfg : (fun (gs : List PLGroup) (q : PLAccount) =>
        if q.account.category == "REVENUE" then gs else add_to_groups gs q) =
      (fun (gs : List PLGroup) (q : PLAccount) =>
        if !(q.account.category == "REVENUE") then add_to_groups gs q else gs) := by
    funext gs q
    by_cases hc : (q.account.category == "REVENUE") = true
    · simp [hc]
    · rw [Bool.not_eq_true] at hc
      simp [hc]
  have hexp_sound : groups_sound
      (fun q => q ∈ get_profit_loss_accounts accounts txns business_id start_date end_date ∧
        ¬ q.account.category = "REVENUE")
      (get_profit_loss accounts txns business_id start_date end_date).expenses := by
    rw [hexp_eq, hfg]
    exact foldl_add_groups_sound _ _ _ (fun q hq hcq => ⟨hq, by simpa using hcq⟩) []
      (fun g hg => absurd hg (List.not_mem_nil g))
  refine ⟨?_, ?_, ?_, rfl, rfl, rfl⟩
  · intro hg hp
    obtain ⟨hq, -⟩ := hrev_sound g hg
    obtain ⟨hmem, hcat⟩ := hq p hp
    obtain ⟨-, hbal, hcut⟩ := mem_profit_loss_accounts hmem
    exact ⟨hcat, by rwa [if_pos hcat] at hbal, hcut⟩
  · intro hg hp
    obtain ⟨hq, -⟩ := hexp_sound g hg
    obtain ⟨hmem, hcat⟩ := hq p hp
    obtain ⟨hor, hbal, hcut⟩ := mem_profit_loss_accounts hmem
    have hexp : p.account.category = "EXPENSE" := by
      rcases hor with h | h
      · exact absurd h hcat
      · exact h
    exact ⟨hexp, by rwa [if_neg hcat] at hbal, hcut⟩
  · intro hg
    rcases hg with hg | hg
    · exact (hrev_sound g hg).2
    · exact (hexp_sound g hg).2

/-- Cash asset account used by the P&L scenario. -/
def exCashAccount : ChartAccount := ⟨3, 1, "1000", "Cash", 1, "Asset", "ASSET", "DEBIT", true⟩

/-- Chart for the P&L scenario: Sales (REVENUE), Rent (EXPENSE), Cash. -/
def exAccounts8 : List ChartAccount :=
  [⟨1, 1, "4000", "Sales", 4, "Revenue", "REVENUE", "CREDIT", true⟩,
    ⟨2, 1, "5000", "Rent", 5, "Expense", "EXPENSE", "DEBIT", true⟩,
    exCashAccount]

/-- Transactions for the P&L scenario: a 500 sale and a 200 rent payment. -/
def exTxns8 : List Transaction :=
  [⟨1, 1, 20240110, "sale", "DEPOSIT", 500,
      [⟨1, 3, 500, 0, "1000", "Cash"⟩, ⟨2, 1, 0, 500, "4000", "Sales"⟩]⟩,
    ⟨2, 1, 20240215, "rent", "PAYMENT", 200,
      [⟨1, 2, 200, 0, "5000", "Rent"⟩, ⟨2, 3, 0, 200, "1000", "Cash"⟩]⟩]

/-- The Sales entry the scenario P&L lists. -/
def exSalesPL : PLAccount :=
  ⟨⟨1, 1, "4000", "Sales", 4, "Revenue", "REVENUE", "CREDIT", true⟩, 500⟩

/-- The revenue group the scenario P&L builds. -/
def exRevenueGroup : PLGroup := ⟨4, "Revenue", [exSalesPL], 500⟩

/-- Helper: full evaluation of the scenario P&L — revenue 500, expenses 200,
net income 300. -/
theorem exPL8_eval :
    get_profit_loss exAccounts8 exTxns8 1 20240101 20241231 =
      ⟨[exRevenueGroup], 500,
        [⟨5, "Expense", [⟨⟨2, 1, "5000", "Rent", 5, "Expense", "EXPENSE", "DEBIT", true⟩,
          200⟩], 200⟩], 200, 300⟩ := by
  have htr : get_transactions exTxns8 1 (some 20240101) (some 20241231) = exTxns8 := by
    decide
  have hh1 : has_lines exTxns8 1 = true := by decide
  have hh2 : has_lines exTxns8 2 = true := by decide
  have hct1 : line_credit_total exTxns8 1 = 500 := by
    simp [line_credit_total, exTxns8, List.filter]
  have hdt1 : line_debit_total exTxns8 1 = 0 := by
    simp [line_debit_total, exTxns8, List.filter]
  have hct2 : line_credit_total exTxns8 2 = 0 := by
    simp [line_credit_total, exTxns8, List.filter]
  have hdt2 : line_debit_total exTxns8 2 = 200 := by
    simp [line_debit_total, exTxns8, List.filter]
  have hpls : get_profit_loss_accounts exAccounts8 exTxns8 1 20240101 20241231 =
      [exSalesPL, ⟨⟨2, 1, "5000", "Rent", 5, "Expense", "EXPENSE", "DEBIT", true⟩, 200⟩] := by
    unfold get_profit_loss_accounts
    rw [htr]
    simp [exAccounts8, exCashAccount, List.filter, hh1, hh2, hct1, hdt1, hct2, hdt2,
      exSalesPL]
    try norm_num
  unfold get_profit_loss
  rw [hpls]
  simp [add_to_groups, exSalesPL, exRevenueGroup, List.foldl]
  try norm_num

/-- C8 witness: the spec scenario (revenue 500 credit-normal, expense 200
debit-normal) — the theorem applied to the Sales member of the revenue
group, plus `net_income = 300` from the evaluated report. -/
theorem get_profit_loss_spec_witness :
    (exSalesPL.account.category = "REVENUE" ∧
      exSalesPL.balance =
        line_credit_total (get_transactions exTxns8 1 (some 20240101) (some 20241231))
          exSalesPL.account.account_id -
        line_debit_total (get_transactions exTxns8 1 (some 20240101) (some 20241231))
          exSalesPL.account.account_id ∧
      (1 : ℚ) / 100 ≤ |exSalesPL.balance|) ∧
    (get_profit_loss exAccounts8 exTxns8 1 20240101 20241231).net_income = 300 :=
  ⟨(get_profit_loss_spec exAccounts8 exTxns8 1 20240101 20241231 exRevenueGroup
      exSalesPL).1
    (by rw [exPL8_eval]; exact List.mem_singleton.mpr rfl)
    (by simp [exRevenueGroup]),
  by rw [exPL8_eval]⟩

/-! ## Header discovery theorems (C9) -/

/-- The scan returns the first non-blank matching line of its input. -/
theorem find_header_scan_map_snd (idx : Nat) (ls : List (List Char)) :
    (find_header_scan idx ls).map Prod.snd =
      ls.find? (fun l => !(stripChars l == []) && line_matches_any l) := by
  induction ls generalizing idx with
  | nil => rfl
  | cons l rest ih =>
    unfold find_header_scan
    by_cases hb : (stripChars l == []) = true
    · rw [if_pos hb]
      rw [List.find?_cons]
      simp [hb, ih]
    · rw [if_neg hb]
      by_cases hm : line_matches_any l = true
      · rw [if_pos hm]
        rw [List.find?_cons]
        simp [hb, hm]
      · rw [if_neg hm]
        rw [List.find?_cons]
        simp [hb, hm, ih]

/-- The scan's returned index addresses the matched line within its input. -/
theorem find_header_scan_spec (ls : List (List Char)) :
    ∀ (idx i : Nat) (l : List Char), find_header_scan idx ls = some (i, l) →
      idx ≤ i ∧ i - idx < ls.length ∧ ls.get? (i - idx) = some l ∧
        line_matches_any l = true := by
  induction ls with
  | nil => intro idx i l h; simp [find_header_scan] at h
  | cons hd rest ih =>
    intro idx i l h
    unfold find_header_scan at h
    by_cases hb : (stripChars hd == []) = true
    · rw [if_pos hb] at h
      obtain ⟨h1, h2, h3, h4⟩ := ih (idx + 1) i l h
      refine ⟨by omega, by simp; omega, ?_, h4⟩
      have hi : i - idx = (i - (idx + 1)) + 1 := by omega
      rw [hi]
      simpa using h3
    · rw [if_neg hb] at h
      by_cases hm : line_matches_any hd = true
      · rw [if_pos hm] at h
        simp only [Option.some.injEq, Prod.mk.injEq] at h
        obtain ⟨rfl, rfl⟩ := h
        exact ⟨le_refl _, by simp, by simp, hm⟩
      · rw [if_neg hm] at h
        obtain ⟨h1, h2, h3, h4⟩ := ih (idx + 1) i l h
        refine ⟨by omega, by simp; omega, ?_, h4⟩
        have hi : i - idx = (i - (idx + 1)) + 1 := by omega
        rw [hi]
        simpa using h3

/-- Scanning the first `n` elements of a list already filtered to the lines
satisfying `q` agrees with scanning the first `n` raw elements when those
all satisfy `q`. -/
theorem find_filter_take (q p : List Char → Bool) :
    ∀ (lines : List (List Char)) (n : Nat), (∀ l ∈ lines.take n, q l = true) →
      ((lines.filter q).take n).find? p = (lines.take n).find? (fun l => q l && p l) := by
  intro lines
  induction lines with
  | nil => intro n h; simp
  | cons hd rest ih =>
    intro n h
    cases n with
    | zero => simp
    | succ m =>
      have hq : q hd = true := h hd (by simp)
      rw [List.take_succ_cons, List.filter_cons, if_pos hq, List.take_succ_cons]
      rw [List.find?_cons, List.find?_cons]
      by_cases hp : p hd = true
      · simp [hp, hq]
      · simp only [hp, hq, Bool.true_and]
        exact ih m (fun l hl => h l (List.mem_cons_of_mem _ hl))

/-- C9, amended.  Header discovery scans the first 20 *raw* lines of the
file — blank lines among them are skipped but still count toward the 20 —
selecting the first line matching one of the three schemas; when no blank
line occurs among the first 20 this coincides with the claim's
"first 20 non-empty lines" reading; and when nothing matches the import
fails with the format-not-recognized error. -/
theorem find_header_window (lines : List (List Char)) :
    ((find_header lines).map Prod.snd =
      (lines.take 20).find? (fun l => !(stripChars l == []) && line_matches_any l)) ∧
    (∀ i l, find_header lines = some (i, l) →
      i < 20 ∧ lines.get? i = some l ∧ line_matches_any l = true) ∧
    ((∀ l ∈ lines.take 20, (!(stripChars l == [])) = true) →
      (find_header lines).map Prod.snd = find_header_claimed lines) ∧
    (find_header lines = none →
      import_csv_header_phase lines =
        .error "CSV format not recognized. Could not find header row in first 20 lines.") := by
  refine ⟨find_header_scan_map_snd 0 (lines.take 20), ?_, ?_, ?_⟩
  · intro i l h
    obtain ⟨-, h2, h3, h4⟩ := find_header_scan_spec (lines.take 20) 0 i l h
    rw [Nat.sub_zero] at h2 h3
    have hlen : (lines.take 20).length ≤ 20 := by simp
    refine ⟨by omega, ?_, h4⟩
    rw [← h3]
    simp only [List.get?_eq_getElem?]
    exact (List.getElem?_take_of_lt (by omega)).symm
  · intro hall
    unfold find_header
    rw [find_header_scan_map_snd 0 (lines.take 20)]
    unfold find_header_claimed
    rw [find_filter_take (fun l => !(stripChars l == [])) line_matches_any lines 20 hall]
  · intro h
    unfold import_csv_header_phase
    rw [h]

/-- A file whose first line is blank and whose header sits on line 21: the
header is among the first 20 non-empty lines but outside the first 20 raw
lines. -/
def exLines9 : List (List Char) :=
  "".data :: (List.replicate 19 "junk".data ++
    ["Posting Date,Description,Amount,Balance".data])

/-- C9, counterexample.  The claim says the importer scans up to the first
20 *non-empty* lines.  On `exLines9` the header is the 20th non-empty line
(so the claimed scan finds it), but the code scans `lines[:20]` — the first
20 raw lines, of which one is blank — misses it, and the import fails with
the format-not-recognized error. -/
theorem find_header_misses_late_header :
    find_header exLines9 = none ∧
    find_header_claimed exLines9 =
      some "Posting Date,Description,Amount,Balance".data ∧
    import_csv_header_phase exLines9 =
      .error "CSV format not recognized. Could not find header row in first 20 lines." := by
  have h1 : find_header exLines9 = none := by decide
  refine ⟨h1, by decide, ?_⟩
  unfold import_csv_header_phase
  rw [h1]

/-- A two-line file with no blank lines: junk, then a format-3 header. -/
def exLines9b : List (List Char) :=
  ["junk".data, "Date,Description,Credit,Debit,Balance".data]

/-- C9 witness: on a file whose first 20 lines are all non-empty, the code's
window and the claimed non-empty-lines window agree. -/
theorem find_header_window_witness :
    (find_header exLines9b).map Prod.snd = find_header_claimed exLines9b :=
  (find_header_window exLines9b).2.2.1 (by decide)

/-! ## Balance-sheet theorems (C5, C7) -/

/-- A date range containing no transaction yields no P&L accounts (every
balance is 0 and falls under the 0.01 cutoff). -/
theorem pl_accounts_nil_of_no_txns (accounts : List ChartAccount)
    (txns : List Transaction) (business_id start_date end_date : Nat)
    (h : get_transactions txns business_id (some start_date) (some end_date) = []) :
    get_profit_loss_accounts accounts txns business_id start_date end_date = [] := by
  unfold get_profit_loss_accounts
  rw [h]
  rw [List.filter_eq_nil_iff]
  intro p hp
  rw [List.mem_map] at hp
  obtain ⟨a, ha, rfl⟩ := hp
  simp [has_lines]
  try norm_num

/-- A date range containing no transaction contributes zero net income. -/
theorem pl_net_income_zero_of_no_txns (accounts : List ChartAccount)
    (txns : List Transaction) (business_id start_date end_date : Nat)
    (h : get_transactions txns business_id (some start_date) (some end_date) = []) :
    pl_net_income accounts txns business_id start_date end_date = 0 := by
  unfold pl_net_income
  rw [pl_accounts_nil_of_no_txns accounts txns business_id start_date end_date h]
  simp

/-- Every chart-derived balance-sheet entry of a category comes from a
non-opening active account of that category. -/
theorem mem_chart_entries {db : Database} {business_id as_of : Nat} {cat : String}
    {e : BSEntry} (h : e ∈ chart_entries db business_id as_of cat) :
    ∃ a ∈ balance_sheet_accounts db business_id,
      ¬ is_opening_balance_account a = true ∧ a.category = cat ∧
      e.entry_id = some a.account_id := by
  unfold chart_entries at h
  rw [List.mem_map] at h
  obtain ⟨a, ha, rfl⟩ := h
  rw [List.mem_filter] at ha
  obtain ⟨hmem, hcond⟩ := ha
  rw [Bool.and_eq_true, Bool.and_eq_true] at hcond
  obtain ⟨⟨hop, hcat⟩, -⟩ := hcond
  refine ⟨a, hmem, ?_, by simpa using hcat, rfl⟩
  simpa using hop

/-- C7, amended.  Retained earnings decompose exactly as
`total = prior + current`, where `prior` is the opening-balance equity total
plus the P&L net income of every year from the hard-coded `earliest_year =
2000` through the year before the as-of year (years before 2000 are never
visited), `current` is the P&L net income from January 1 of the as-of year
through the as-of date, and every equity entry is either the synthetic
retained-earnings line or stems from a non-opening equity account — the
"Opening Balance" account itself is excluded. -/
theorem retained_earnings_decomposition (db : Database) (business_id as_of : Nat) :
    (get_balance_sheet db business_id as_of).retained_earnings.prior_years_net_income =
      opening_balance_from_equity db business_id as_of +
        ((List.range' 2000 (as_of / 10000 - 2000)).map
          (fun y => pl_net_income db.accounts db.txns business_id
            (y * 10000 + 101) (y * 10000 + 1231))).sum ∧
    (get_balance_sheet db business_id as_of).retained_earnings.current_year_net_income =
      pl_net_income db.accounts db.txns business_id
        ((as_of / 10000) * 10000 + 101) as_of ∧
    (get_balance_sheet db business_id as_of).retained_earnings.total =
      (get_balance_sheet db business_id as_of).retained_earnings.prior_years_net_income +
        (get_balance_sheet db business_id as_of).retained_earnings.current_year_net_income ∧
    (∀ ent, ent ∈ (get_balance_sheet db business_id as_of).equity →
      ent = retained_earnings_entry
        (get_balance_sheet db business_id as_of).retained_earnings.total ∨
      ∃ a ∈ balance_sheet_accounts db business_id,
        ¬ is_opening_balance_account a = true ∧ a.category = "EQUITY" ∧
        ent.entry_id = some a.account_id) := by
  refine ⟨rfl, rfl, rfl, ?_⟩
  intro ent hent
  have hequity : (get_balance_sheet db business_id as_of).equity =
      chart_entries db business_id as_of "EQUITY" ++
        [retained_earnings_entry
          (get_balance_sheet db business_id as_of).retained_earnings.total] := rfl
  rw [hequity] at hent
  rcases List.mem_append.mp hent with hchart | hre
  · exact Or.inr (mem_chart_entries hchart)
  · exact Or.inl (List.mem_singleton.mp hre)

/-- The 1999 sale transaction of the pre-2000 scenario. -/
def exTxn7 : Transaction :=
  ⟨1, 1, 19990601, "sale", "DEPOSIT", 500,
    [⟨1, 2, 500, 0, "1000", "Cash"⟩, ⟨2, 1, 0, 500, "4000", "Sales"⟩]⟩

/-- The database of the pre-2000 scenario: a 500 sale dated 1999-06-01. -/
def exDb7 : Database :=
  { accounts := [⟨1, 1, "4000", "Sales", 4, "Revenue", "REVENUE", "CREDIT", true⟩,
      ⟨2, 1, "1000", "Cash", 1, "Asset", "ASSET", "DEBIT", true⟩]
    txns := [exTxn7]
    bank_accounts := []
    credit_card_accounts := []
    loan_accounts := [] }

/-- C7, counterexample.  The claim says `prior_years_net_income` covers the
net income of *every* year strictly before the as-of year.  With one 500
revenue transaction dated 1999-06-01 and as-of date 2001-12-31 the claimed
figure is 500, but the code's year loop starts at the hard-coded 2000 and
never visits 1999, producing 0. -/
theorem retained_earnings_misses_pre2000 :
    (get_balance_sheet exDb7 1 20011231).retained_earnings.prior_years_net_income = 0 ∧
    prior_years_net_income_claimed exDb7 1 20011231 = 500 := by
  have hop : opening_balance_from_equity exDb7 1 20011231 = 0 := by
    simp [opening_balance_from_equity, balance_sheet_accounts,
      is_opening_balance_account, upperChars, chars_substr, chars_startsWith, exDb7]
  have h2000 : pl_net_income exDb7.accounts exDb7.txns 1 20000101 20001231 = 0 :=
    pl_net_income_zero_of_no_txns _ _ _ _ _ (by decide)
  have h1999 : pl_net_income exDb7.accounts exDb7.txns 1 19990101 19991231 = 500 := by
    have htr : get_transactions exDb7.txns 1 (some 19990101) (some 19991231) =
        [exTxn7] := by decide
    have hpls : get_profit_loss_accounts exDb7.accounts exDb7.txns 1 19990101 19991231 =
        [⟨⟨1, 1, "4000", "Sales", 4, "Revenue", "REVENUE", "CREDIT", true⟩, 500⟩] := by
      unfold get_profit_loss_accounts
      rw [htr]
      have hh : has_lines [exTxn7] 1 = true := by decide
      have hct : line_credit_total [exTxn7] 1 = 500 := by
        simp [line_credit_total, exTxn7, List.filter]
      have hdt : line_debit_total [exTxn7] 1 = 0 := by
        simp [line_debit_total, exTxn7, List.filter]
      simp [exDb7, List.filter, hh, hct, hdt]
      try norm_num
    unfold pl_net_income
    rw [hpls]
    simp [List.filter]
    try norm_num
  constructor
  · have hre : (get_balance_sheet exDb7 1 20011231).retained_earnings.prior_years_net_income =
        opening_balance_from_equity exDb7 1 20011231 +
          ((List.range' 2000 (20011231 / 10000 - 2000)).map
            (fun y => pl_net_income exDb7.accounts exDb7.txns 1
              (y * 10000 + 101) (y * 10000 + 1231))).sum := rfl
    rw [hre, hop]
    rw [show (20011231 / 10000 - 2000) = 1 from by norm_num]
    rw [show List.range' 2000 1 = [2000] from rfl]
    simp only [List.map_cons, List.map_nil]
    rw [show (2000 * 10000 + 101) = 20000101 from by norm_num,
      show (2000 * 10000 + 1231) = 20001231 from by norm_num]
    rw [h2000]
    simp
  · unfold prior_years_net_income_claimed
    rw [hop]
    rw [show (20011231 / 10000) = 2001 from by norm_num]
    rw [show List.range 2001 = List.range 2000 ++ [2000] from List.range_succ 2000]
    rw [show List.range 2000 = List.range 1999 ++ [1999] from List.range_succ 1999]
    rw [List.map_append, List.map_append, List.sum_append, List.sum_append]
    have hzero : ((List.range 1999).map (fun y => pl_net_income exDb7.accounts exDb7.txns 1
        (y * 10000 + 101) (y * 10000 + 1231))).sum = 0 := by
      apply List.sum_eq_zero
      intro x hx
      rw [List.mem_map] at hx
      obtain ⟨y, hy, rfl⟩ := hx
      rw [List.mem_range] at hy
      apply pl_net_income_zero_of_no_txns
      unfold get_transactions
      rw [List.filter_eq_nil_iff]
      intro t ht
      have ht' : t = exTxn7 := by
        simpa [exDb7] using ht
      subst ht'
      simp only [exTxn7, Bool.and_eq_true, decide_eq_true_eq, beq_iff_eq]
      intro hcontra
      omega
    rw [hzero]
    simp only [List.map_cons, List.map_nil, List.sum_cons, List.sum_nil]
    rw [show (1999 * 10000 + 101) = 19990101 from by norm_num,
      show (1999 * 10000 + 1231) = 19991231 from by norm_num,
      show (2000 * 10000 + 101) = 20000101 from by norm_num,
      show (2000 * 10000 + 1231) = 20001231 from by norm_num]
    rw [h1999, h2000]
    norm_num

/-- C7 witness: the amended decomposition applied at the concrete pre-2000
database, its equity-membership part discharged at the retained-earnings
entry itself. -/
theorem retained_earnings_decomposition_witness :
    retained_earnings_entry
        (get_balance_sheet exDb7 1 20011231).retained_earnings.total =
      retained_earnings_entry
        (get_balance_sheet exDb7 1 20011231).retained_earnings.total ∨
    ∃ a ∈ balance_sheet_accounts exDb7 1,
      ¬ is_opening_balance_account a = true ∧ a.category = "EQUITY" ∧
      (retained_earnings_entry
        (get_balance_sheet exDb7 1 20011231).retained_earnings.total).entry_id =
        some a.account_id :=
  (retained_earnings_decomposition exDb7 1 20011231).2.2.2
    (retained_earnings_entry (get_balance_sheet exDb7 1 20011231).retained_earnings.total)
    (by
      have hequity : (get_balance_sheet exDb7 1 20011231).equity =
          chart_entries exDb7 1 20011231 "EQUITY" ++
            [retained_earnings_entry
              (get_balance_sheet exDb7 1 20011231).retained_earnings.total] := rfl
      rw [hequity]
      exact List.mem_append_right _ (List.mem_singleton.mpr rfl))

/-- Guard checked by the bank-merge loop for a code-matched chart account:
its id and code are absent from the chart-derived assets. -/
def bank_chart_unmerged (all : List ChartAccount) (existing_ids : List Nat)
    (existing_codes : List String) (b : SubAccount) : Prop :=
  ∀ c, all.find? (fun a => a.account_code == bank_code b) = some c →
    existing_ids.contains c.account_id = false ∧
    existing_codes.contains (bank_code b) = false

/-- Every entry produced by the bank-merge loop is either inherited from the
initial assets or is a bank entry whose code-matched chart account passed
the id/code de-duplication guard. -/
theorem mem_bank_fold (all : List ChartAccount) (txnsLE : List Transaction)
    (ids : List Nat) (codes : List String) :
    ∀ (banks : List SubAccount) (acc : BankAcc) (e : BSEntry),
      e ∈ (banks.foldl (bank_fold_step all txnsLE ids codes) acc).assets →
      e ∈ acc.assets ∨
      ∃ b ∈ banks,
        e = mk_bank_entry txnsLE b
          (all.find? (fun a => a.account_code == bank_code b)) ∧
        bank_chart_unmerged all ids codes b := by
  intro banks
  induction banks with
  | nil => intro acc e he; exact Or.inl he
  | cons b rest ih =>
    intro acc e he
    rw [List.foldl_cons] at he
    rcases ih _ e he with hstep | ⟨b', hb', heq, hguard⟩
    · unfold bank_fold_step at hstep
      simp only at hstep
      by_cases h1 : acc.added_keys.contains (bank_code b, b.account_name, b.sid) = true
      · rw [if_pos h1] at hstep; exact Or.inl hstep
      · rw [if_neg h1] at hstep
        by_cases h2 : (b.account_name != "" &&
            acc.assets.any (fun a => a.account_name == b.account_name &&
              (a.is_bank_account || chars_startsWith "BANK-".data a.account_code.data))) = true
        · rw [if_pos h2] at hstep; exact Or.inl hstep
        · rw [if_neg h2] at hstep
          cases hfind : all.find? (fun a => a.account_code == bank_code b) with
          | some chart =>
            simp only [hfind] at hstep
            by_cases h3 : ids.contains chart.account_id = true
            · rw [if_pos h3] at hstep; exact Or.inl hstep
            · rw [if_neg h3] at hstep
              by_cases h4 : codes.contains (bank_code b) = true
              · rw [if_pos h4] at hstep; exact Or.inl hstep
              · rw [if_neg h4] at hstep
                simp only at hstep
                rcases List.mem_append.mp hstep with hold | hnew
                · exact Or.inl hold
                · refine Or.inr ⟨b, List.mem_cons_self _ _, ?_, ?_⟩
                  · rw [List.mem_singleton.mp hnew, hfind]
                  · intro c hc
                    rw [hfind] at hc
                    obtain rfl : chart = c := by injection hc
                    exact ⟨by simpa using h3, by simpa using h4⟩
          | none =>
            simp only [hfind] at hstep
            rcases List.mem_append.mp hstep with hold | hnew
            · exact Or.inl hold
            · refine Or.inr ⟨b, List.mem_cons_self _ _, ?_, ?_⟩
              · rw [List.mem_singleton.mp hnew, hfind]
              · intro c hc
                rw [hfind] at hc
                exact absurd hc (by simp)
    · exact Or.inr ⟨b', List.mem_cons_of_mem _ hb', heq, hguard⟩

/-- C5, amended.  Only bank subsidiary accounts are de-duplicated when
merged into the balance sheet — by their code-matched chart account's id or
code against the chart-derived assets (plus the loop's repeated-key and
same-named-bank-entry checks); credit-card and loan subsidiary accounts are
appended to the liabilities unconditionally, with no de-duplication against
chart-of-accounts entries, so those instruments can be counted twice. -/
theorem balance_sheet_subsidiary_merge (db : Database) (business_id as_of : Nat) :
    ((get_balance_sheet db business_id as_of).liabilities =
      chart_entries db business_id as_of "LIABILITY" ++
        ((db.credit_card_accounts.filter
          (fun c => c.business_id == business_id && c.is_active)).map cc_entry) ++
        ((db.loan_accounts.filter
          (fun l => l.business_id == business_id && l.is_active)).map loan_entry)) ∧
    (∀ e ∈ (get_balance_sheet db business_id as_of).assets,
      e ∈ chart_entries db business_id as_of "ASSET" ∨
      ∃ b ∈ db.bank_accounts.filter
          (fun b => b.business_id == business_id && b.is_active),
        e = mk_bank_entry (get_transactions db.txns business_id none (some as_of)) b
          ((db.accounts.filter (fun a => a.business_id == business_id)).find?
            (fun a => a.account_code == bank_code b)) ∧
        bank_chart_unmerged (db.accounts.filter (fun a => a.business_id == business_id))
          ((chart_entries db business_id as_of "ASSET").filterMap (·.entry_id))
          (((chart_entries db business_id as_of "ASSET").filter
            (fun a => a.account_code != "")).map (·.account_code)) b) := by
  refine ⟨rfl, ?_⟩
  intro e he
  have hassets : (get_balance_sheet db business_id as_of).assets =
      ((db.bank_accounts.filter
        (fun b => b.business_id == business_id && b.is_active)).foldl
        (bank_fold_step (db.accounts.filter (fun a => a.business_id == business_id))
          (get_transactions db.txns business_id none (some as_of))
          ((chart_entries db business_id as_of "ASSET").filterMap (·.entry_id))
          (((chart_entries db business_id as_of "ASSET").filter
            (fun a => a.account_code != "")).map (·.account_code)))
        { assets := chart_entries db business_id as_of "ASSET",
          added_keys := [] }).assets := rfl
  rw [hassets] at he
  rcases mem_bank_fold _ _ _ _ _ _ e he with hchart | hbank
  · exact Or.inl hchart
  · exact Or.inr hbank

/-- The credit-card payment transaction of the double-counting scenario. -/
def exTxn5 : Transaction :=
  ⟨1, 1, 20000301, "card payment", "ADJUSTMENT", 100,
    [⟨1, 2, 100, 0, "1000", "Cash"⟩, ⟨2, 1, 0, 100, "2100", "Visa"⟩]⟩

/-- Database of the double-counting scenario: a chart liability account
"Visa" (code 2100, balance 100 from transactions) and a credit-card
subsidiary account with the same code, name and a 100 current balance. -/
def exDb5 : Database :=
  { accounts := [⟨1, 1, "2100", "Visa", 2, "Credit Card", "LIABILITY", "CREDIT", true⟩,
      ⟨2, 1, "1000", "Cash", 1, "Asset", "ASSET", "DEBIT", true⟩]
    txns := [exTxn5]
    bank_accounts := []
    credit_card_accounts := [⟨1, 1, "Visa", some "2100", none, 100, true⟩]
    loan_accounts := [] }

/-- Helper: the chart pass of the scenario's balance sheet lists the Visa
liability with balance 100. -/
theorem exDb5_liab_eval : chart_entries exDb5 1 20001231 "LIABILITY" =
    [⟨some 1, "2100", "Visa", 100, false, false, false⟩] := by
  unfold chart_entries
  rw [show get_transactions exDb5.txns 1 none (some 20001231) = [exTxn5] from by decide]
  have ho1 : is_opening_balance_account
      ⟨1, 1, "2100", "Visa", 2, "Credit Card", "LIABILITY", "CREDIT", true⟩ = false := by
    decide
  have ho2 : is_opening_balance_account
      ⟨2, 1, "1000", "Cash", 1, "Asset", "ASSET", "DEBIT", true⟩ = false := by
    decide
  have hh1 : has_lines [exTxn5] 1 = true := by decide
  have hct : line_credit_total [exTxn5] 1 = 100 := by
    simp [line_credit_total, exTxn5, List.filter]
  have hdt : line_debit_total [exTxn5] 1 = 0 := by
    simp [line_debit_total, exTxn5, List.filter]
  simp [balance_sheet_accounts, exDb5, List.filter, ho1, ho2, hh1,
    account_balance_asof, hct, hdt]

/-- Helper: the chart pass of the scenario's balance sheet lists the Cash
asset with balance 100. -/
theorem exDb5_asset_eval : chart_entries exDb5 1 20001231 "ASSET" =
    [⟨some 2, "1000", "Cash", 100, false, false, false⟩] := by
  unfold chart_entries
  rw [show get_transactions exDb5.txns 1 none (some 20001231) = [exTxn5] from by decide]
  have ho1 : is_opening_balance_account
      ⟨1, 1, "2100", "Visa", 2, "Credit Card", "LIABILITY", "CREDIT", true⟩ = false := by
    decide
  have ho2 : is_opening_balance_account
      ⟨2, 1, "1000", "Cash", 1, "Asset", "ASSET", "DEBIT", true⟩ = false := by
    decide
  have hh2 : has_lines [exTxn5] 2 = true := by decide
  have hct : line_credit_total [exTxn5] 2 = 0 := by
    simp [line_credit_total, exTxn5, List.filter]
  have hdt : line_debit_total [exTxn5] 2 = 100 := by
    simp [line_debit_total, exTxn5, List.filter]
  simp [balance_sheet_accounts, exDb5, List.filter, ho1, ho2, hh2,
    account_balance_asof, hct, hdt]

/-- C5, counterexample.  The claim says every credit-card subsidiary merged
into the liabilities is de-duplicated against a chart account already
representing the same instrument (code "2100", name "Visa" here), so no
balance is counted twice.  In fact the credit card is appended
unconditionally: the liabilities list carries the 2100/Visa instrument
twice and `total_liabilities` is 200 instead of 100. -/
theorem balance_sheet_double_counts_credit_card :
    (get_balance_sheet exDb5 1 20001231).liabilities.map
      (fun e => (e.account_code, e.balance)) = [("2100", 100), ("2100", 100)] ∧
    (get_balance_sheet exDb5 1 20001231).total_liabilities = 200 := by
  have hliab : (get_balance_sheet exDb5 1 20001231).liabilities =
      chart_entries exDb5 1 20001231 "LIABILITY" ++
        ((exDb5.credit_card_accounts.filter
          (fun c => c.business_id == 1 && c.is_active)).map cc_entry) ++
        ((exDb5.loan_accounts.filter
          (fun l => l.business_id == 1 && l.is_active)).map loan_entry) := rfl
  have hccs : (exDb5.credit_card_accounts.filter
      (fun c => c.business_id == 1 && c.is_active)).map cc_entry =
      [⟨none, "2100", "Visa", 100, false, true, false⟩] := by
    simp [exDb5, cc_entry, List.filter]
  have hloans : (exDb5.loan_accounts.filter
      (fun l => l.business_id == 1 && l.is_active)).map loan_entry = [] := by
    simp [exDb5]
  constructor
  · rw [hliab, exDb5_liab_eval, hccs, hloans]
    simp
  · have htot : (get_balance_sheet exDb5 1 20001231).total_liabilities =
        ((get_balance_sheet exDb5 1 20001231).liabilities.map (·.balance)).sum := rfl
    rw [htot, hliab, exDb5_liab_eval, hccs, hloans]
    norm_num

/-- C5 witness: the amended theorem's asset-provenance part applied at the
scenario's Cash entry — it stems from the chart of accounts, banks having
been merged with the de-duplication guard. -/
theorem balance_sheet_subsidiary_merge_witness :
    (⟨some 2, "1000", "Cash", 100, false, false, false⟩ : BSEntry) ∈
      chart_entries exDb5 1 20001231 "ASSET" ∨
    ∃ b ∈ exDb5.bank_accounts.filter (fun b => b.business_id == 1 && b.is_active),
      (⟨some 2, "1000", "Cash", 100, false, false, false⟩ : BSEntry) =
        mk_bank_entry (get_transactions exDb5.txns 1 none (some 20001231)) b
          ((exDb5.accounts.filter (fun a => a.business_id == 1)).find?
            (fun a => a.account_code == bank_code b)) ∧
      bank_chart_unmerged (exDb5.accounts.filter (fun a => a.business_id == 1))
        ((chart_entries exDb5 1 20001231 "ASSET").filterMap (·.entry_id))
        (((chart_entries exDb5 1 20001231 "ASSET").filter
          (fun a => a.account_code != "")).map (·.account_code)) b :=
  (balance_sheet_subsidiary_merge exDb5 1 20001231).2
    ⟨some 2, "1000", "Cash", 100, false, false, false⟩
    (by
      rw [show (get_balance_sheet exDb5 1 20001231).assets =
        chart_entries exDb5 1 20001231 "ASSET" from rfl, exDb5_asset_eval]
      exact List.mem_singleton.mpr rfl)

end IgtAccounting
